import Mathlib

/-!
Verification development for the remote MCP server repository
(Cloudflare Workers deployment tools).

The TypeScript sources are embedded shallowly:
* pure helpers (`validateWorkerCode`) become Lean functions over `List Char`;
* each remote call (`fetch`) is replaced by an oracle value describing the
  outcome the network would have produced (`Except String _` — `.error m`
  models a rejected promise / thrown transport error carrying message `m`);
* each tool handler becomes a total function from its inputs and oracles
  to a structured outcome plus the list of outbound remote calls it issued;
* the markdown texts returned to the dispatch layer are rendered by
  explicit `render…` functions mirroring the template literals of the
  source (JSON bodies are rendered compactly; the surrounding literal
  segments are reproduced verbatim).
-/

namespace RemoteMCP

/-! ## String predicates used in claim statements -/

/-- `s` starts with `p` (on the character sequence, as JS `startsWith`). -/
def StrStartsWith (s p : String) : Prop := p.data <+: s.data

/-- `s` contains `p` as a contiguous substring (as JS `includes`). -/
def StrContains (s p : String) : Prop := p.data <:+: s.data

instance (s p : String) : Decidable (StrStartsWith s p) := by
  unfold StrStartsWith; infer_instance

instance (s p : String) : Decidable (StrContains s p) := by
  unfold StrContains; infer_instance

/-! ## Character classes (ASCII approximations of the JS classes used) -/

/-- JS `\s` (whitespace), restricted to its ASCII members. -/
def isWSChar (c : Char) : Bool :=
  c = ' ' || c = '\t' || c = '\n' || c = '\r' || c.val == 11 || c.val == 12

/-- JS `\w` (word character), as used by the `\b` boundary assertion. -/
def isWordChar (c : Char) : Bool := c.isAlphanum || c = '_'

def backtickChar : Char := Char.ofNat 96
def squoteChar : Char := Char.ofNat 39
def lbraceChar : Char := Char.ofNat 123
def rbraceChar : Char := Char.ofNat 125

/-- JS `String.prototype.trim` on the character sequence: drop whitespace
from both ends. -/
def trimChars (s : List Char) : List Char :=
  ((s.dropWhile isWSChar).reverse.dropWhile isWSChar).reverse

/-! ## A tiny regex fragment

The dangerous-pattern regexes of `validateWorkerCode` use only literals,
`\s*`, `\s+`, `.*` (no-newline wildcard), the quote class ``['"`]`` and the
word-boundary assertion `\b` at the start.  `matchHere pats s` decides
whether some prefix of `s` matches the pattern sequence (existential
semantics, equivalent to backtracking for match-existence). -/

inductive Pat : Type
  | lit (cs : List Char)
  | ws0
  | ws1
  | anyNN0
  | quote
deriving Repr

/-- Length of the run of leading whitespace characters. -/
def wsRunLen (s : List Char) : Nat := (s.takeWhile isWSChar).length

/-- Length of the run of leading non-line-terminator characters
(what JS `.` can consume). -/
def nnRunLen (s : List Char) : Nat :=
  (s.takeWhile (fun c => !(c = '\n' || c = '\r'))).length

def matchHere : List Pat → List Char → Bool
  | [], _ => true
  | .lit cs :: ps, s => cs.isPrefixOf s && matchHere ps (s.drop cs.length)
  | .ws0 :: ps, s => (List.range (wsRunLen s + 1)).any fun j => matchHere ps (s.drop j)
  | .ws1 :: ps, s => (List.range (wsRunLen s)).any fun j => matchHere ps (s.drop (j + 1))
  | .anyNN0 :: ps, s => (List.range (nnRunLen s + 1)).any fun j => matchHere ps (s.drop j)
  | .quote :: ps, s =>
    match s with
    | [] => false
    | c :: rest => (c = squoteChar || c = '"' || c = backtickChar) && matchHere ps rest

/-- The `\b` assertion before the first literal: the previous character
(if any) is not a word character. -/
def boundaryOk (needB : Bool) (prev : Option Char) : Bool :=
  !needB ||
    match prev with
    | none => true
    | some c => !isWordChar c

/-- Scan every start position, tracking the previous character for `\b`. -/
def searchAux (needB : Bool) (ps : List Pat) : Option Char → List Char → Bool
  | prev, s =>
    (boundaryOk needB prev && matchHere ps s) ||
      match s with
      | [] => false
      | c :: rest => searchAux needB ps (some c) rest

/-- JS `RegExp.prototype.test`: does any substring match? -/
def regexTest (needB : Bool) (ps : List Pat) (s : List Char) : Bool :=
  searchAux needB ps none s

/-! ## `validateWorkerCode` (src/deployment/validation.ts) -/

structure WorkerCodeValidationResult where
  isValid : Bool
  error : Option String
deriving Repr, DecidableEq

/-- The case-insensitive dangerous patterns, written over lower-cased text
(the subject is lower-cased before testing; the flag marks a leading `\b`).
Order in the source is immaterial here because every pattern produces the
same error message. -/
def dangerousPatternsCI : List (Bool × List Pat) :=
  [ (true,  [.lit "eval".data, .ws0, .lit "(".data]),
    (true,  [.lit "function".data, .ws0, .lit "(".data]),
    (false, [.lit "process.exit".data]),
    (false, [.lit "process.kill".data]),
    (false, [.lit "child_process".data]),
    (false, [.lit "require".data, .ws0, .lit "(".data, .ws0, .quote,
             .lit "fs".data, .quote, .ws0, .lit ")".data]),
    (false, [.lit "require".data, .ws0, .lit "(".data, .ws0, .quote,
             .lit "path".data, .quote, .ws0, .lit ")".data]),
    (false, [.lit "require".data, .ws0, .lit "(".data, .ws0, .quote,
             .lit "os".data, .quote, .ws0, .lit ")".data]),
    (false, [.lit "require".data, .ws0, .lit "(".data, .ws0, .quote,
             .lit "crypto".data, .quote, .ws0, .lit ")".data]),
    (false, [.lit "import".data, .ws1, .anyNN0, .ws1, .lit "from".data, .ws1,
             .quote, .lit "fs".data, .quote]),
    (false, [.lit "import".data, .ws1, .anyNN0, .ws1, .lit "from".data, .ws1,
             .quote, .lit "path".data, .quote]),
    (false, [.lit "import".data, .ws1, .anyNN0, .ws1, .lit "from".data, .ws1,
             .quote, .lit "os".data, .quote]),
    (false, [.lit ".exec".data, .ws0, .lit "(".data]),
    (false, [.lit ".spawn".data, .ws0, .lit "(".data]),
    (false, [.lit "new".data, .ws1, .lit "function".data, .ws0, .lit "(".data]),
    (false, [.lit "document.write".data]),
    (false, [.lit "document.writeln".data]),
    (false, [.lit "innerhtml".data, .ws0, .lit "=".data]),
    (false, [.lit "outerhtml".data, .ws0, .lit "=".data]),
    (false, [.lit "javascript:".data]),
    (false, [.lit "vbscript:".data]),
    (false, [.lit "data:".data, .ws0, .lit "text/html".data]) ]

/-- The one case-sensitive pattern `/\$\{.*\}/` (template literal
interpolation on a single line). -/
def templatePattern : List Pat :=
  [.lit ['$', lbraceChar], .anyNN0, .lit [rbraceChar]]

/-- Does the code match the template-literal interpolation pattern
`/\$\{.*\}/` of `validateWorkerCode`? -/
def hasTemplateLiteral (code : String) : Bool :=
  regexTest false templatePattern code.data

/-- Some entry of `dangerousPatterns` matches the code. -/
def dangerousPatternHit (code : String) : Bool :=
  (dangerousPatternsCI.any fun p => regexTest p.1 p.2 (code.data.map Char.toLower)) ||
    hasTemplateLiteral code

def msgEmptyCode : String := "Worker code cannot be empty"
def msgDangerous : String := "Code contains potentially dangerous patterns"
def msgTooLarge : String := "Code is too large (maximum 1MB allowed)"

/-- `validateWorkerCode` from src/deployment/validation.ts.
`code.length` (UTF-16 units in JS) is modelled by the character count. -/
def validateWorkerCode (code : String) : WorkerCodeValidationResult :=
  if trimChars code.data = [] then ⟨false, some msgEmptyCode⟩
  else if dangerousPatternHit code then ⟨false, some msgDangerous⟩
  else if 1024 * 1024 < code.data.length then ⟨false, some msgTooLarge⟩
  else ⟨true, none⟩

/-! ## JS value helpers -/

/-- JS `v || dflt` for an optional string (both `undefined`/`null` and the
empty string are falsy). -/
def jsOr (v : Option String) (dflt : String) : String :=
  match v with
  | some s => if s = "" then dflt else s
  | none => dflt

/-- JS `v || dflt` for a string (the empty string is falsy). -/
def jsOrStr (v dflt : String) : String := if v = "" then dflt else v

/-- Truthiness of an optional string value. -/
def strTruthy : Option String → Bool
  | none => false
  | some s => !(s = "")

/-- JS template interpolation of a possibly-undefined string. -/
def jsShow (v : Option String) : String := v.getD "undefined"

/-! ## Remote control-plane client (src/deployment/cloudflare-api.ts)

Each outbound HTTP request is recorded as an `RCall`.  The network is an
oracle: `Except String (CFResponse α)`, where `.error m` models a rejected
`fetch`/`json()` promise (transport failure with message `m`) and `.ok`
the parsed provider envelope. -/

/-- One entry of the provider envelope's `errors` array (`code` and
`message` members, either possibly absent). -/
structure CFError where
  code : Option Nat
  message : Option String
deriving Repr, DecidableEq

structure CFResponse (α : Type) where
  success : Bool
  errors : List CFError
  messages : List String
  result : Option α
deriving Repr, DecidableEq

/-- `r.errors?.[0]?.message || dflt`. -/
def firstErrOr {α : Type} (r : CFResponse α) (dflt : String) : String :=
  match r.errors.head? with
  | some e => jsOr e.message dflt
  | none => dflt

/-- `r.errors?.[0]?.code === 10007` (strict equality against a possibly
absent member). -/
def firstErrCodeIs10007 {α : Type} (r : CFResponse α) : Bool :=
  match r.errors.head? with
  | some e =>
    match e.code with
    | some c => c == 10007
    | none => false
  | none => false

/-- Outcome of one remote call. -/
abbrev ROut (α : Type) := Except String (CFResponse α)

structure CloudflareWorker where
  id : String
  name : String
  created_on : String
  modified_on : String
  compatibility_date : Option String
  usage_model : Option String
  environment : Option String
deriving Repr, DecidableEq

structure KVNamespace where
  id : String
  title : String
  supportsUrlEncoding : Bool
deriving Repr, DecidableEq

/-- One outbound HTTP request of the client (or of the direct `fetch` in
the KV tool). -/
inductive RCall : Type
  | scriptsList
  | workerPut (name : String)
  | settingsGet (name : String)
  | domainsGet
  | scriptDelete (name : String)
  | scriptGet (name : String)
  | secretPut (workerName : String) (secretName : String)
  | kvCreate (title : String)
deriving Repr, DecidableEq

/-- `listWorkers`: one `GET` of the scripts collection. -/
def listWorkersApi (o : ROut (List CloudflareWorker)) :
    ROut (List CloudflareWorker) × List RCall :=
  (o, [.scriptsList])

/-- `deployWorker`: one multipart `PUT` of the script. -/
def deployWorkerApi (name : String) (o : ROut CloudflareWorker) :
    ROut CloudflareWorker × List RCall :=
  (o, [.workerPut name])

/-- `deleteWorker`: one `DELETE` of the script. -/
def deleteWorkerApi (name : String) (o : ROut Unit) : ROut Unit × List RCall :=
  (o, [.scriptDelete name])

/-- `getWorkerLogs`: one `GET` of the script resource. -/
def getWorkerLogsApi (name : String) (o : ROut (List String)) :
    ROut (List String) × List RCall :=
  (o, [.scriptGet name])

/-- `setWorkerSecret`: one `PUT` of the secret. -/
def setWorkerSecretApi (workerName secretName : String) (o : ROut Unit) :
    ROut Unit × List RCall :=
  (o, [.secretPut workerName secretName])

/-- `createKVNamespace`: one `POST` to the KV namespaces endpoint. -/
def createKVNamespaceApi (title : String) (o : ROut KVNamespace) :
    ROut KVNamespace × List RCall :=
  (o, [.kvCreate title])

/-! ### `getWorker` (two-tier lookup with synthesized fallbacks) -/

/-- Body of the `/settings` endpoint as far as `getWorker` inspects it. -/
structure SettingsResult where
  created_on : Option String
  modified_on : Option String
  usage_model : Option String
  compatibility_date : Option String
deriving Repr, DecidableEq

/-- Network oracle for one `getWorker` invocation.  `primary` is the
`/settings` fetch: `.error` a thrown fetch, otherwise the HTTP status
together with the parsed body (whose own `.error` is a thrown `json()`).
`domains` is the fallback fetch (body unused by the source); `now` is
`new Date().toISOString()`. -/
structure GetWorkerEnv where
  primary : Except String (Nat × Except String (CFResponse SettingsResult))
  domains : Except String Unit
  now : String

/-- The synthetic envelope built in the 404 branch. -/
def synthetic404Response (name now : String) : CFResponse CloudflareWorker :=
  { success := true, errors := [], messages := [],
    result := some
      { id := name, name := name, created_on := now, modified_on := now,
        compatibility_date := none, usage_model := some "bundled",
        environment := some "production" } }

/-- The synthetic envelope built in the catch branch ("limited
information"). -/
def limitedInfoResponse (name now : String) : CFResponse CloudflareWorker :=
  { success := true, errors := [],
    messages := ["Worker status retrieved with limited information"],
    result := some
      { id := name, name := name, created_on := now, modified_on := now,
        compatibility_date := none, usage_model := none,
        environment := some "production" } }

/-- `CloudflareAPI.getWorker`.  On a 404 from `/settings` it probes the
domains endpoint and synthesizes a success envelope; any thrown fetch or
parse error is caught and also yields a synthetic success envelope.  When
the settings body is returned raw (the `return data` fall-through), its
`result` carries no worker object and is modelled as `none`. -/
def getWorkerApi (name : String) (o : GetWorkerEnv) :
    CFResponse CloudflareWorker × List RCall :=
  match o.primary with
  | .error _ => (limitedInfoResponse name o.now, [.settingsGet name])
  | .ok (status, body) =>
    if status == 404 then
      match o.domains with
      | .ok _ => (synthetic404Response name o.now, [.settingsGet name, .domainsGet])
      | .error _ => (limitedInfoResponse name o.now, [.settingsGet name, .domainsGet])
    else
      match body with
      | .error _ => (limitedInfoResponse name o.now, [.settingsGet name])
      | .ok data =>
        match data.result with
        | some settings =>
          if data.success then
            ({ success := true, errors := [], messages := [],
               result := some
                 { id := name, name := name,
                   created_on := jsOr settings.created_on o.now,
                   modified_on := jsOr settings.modified_on o.now,
                   usage_model := some (jsOr settings.usage_model "bundled"),
                   compatibility_date := settings.compatibility_date,
                   environment := some "production" } },
             [.settingsGet name])
          else
            ({ success := data.success, errors := data.errors,
               messages := data.messages, result := none }, [.settingsGet name])
        | none =>
          ({ success := data.success, errors := data.errors,
             messages := data.messages, result := none }, [.settingsGet name])

/-- The primary `/settings` fetch returned HTTP 404. -/
def primaryStatusIs404 (o : GetWorkerEnv) : Bool :=
  match o.primary with
  | .ok (s, _) => s == 404
  | .error _ => false

/-- The primary `/settings` fetch threw a transport error. -/
def primaryThrew (o : GetWorkerEnv) : Bool :=
  match o.primary with
  | .error _ => true
  | .ok _ => false

/-! ## Hosting environment and caller identity -/

/-- The bindings the hosting environment supplies (a missing variable is
`none`; JS truthiness also treats `""` as absent). -/
structure Env where
  cloudflareAccountId : Option String
  cloudflareApiToken : Option String
  supabaseUrl : Option String
  supabaseAnonKey : Option String
deriving Repr, DecidableEq

/-- `!accountId || !apiToken` — the credentials check every deployment
tool performs. -/
def credsMissing (env : Env) : Bool :=
  !strTruthy env.cloudflareAccountId || !strTruthy env.cloudflareApiToken

/-- The OAuth identity record (`Props` from src/types.ts). -/
structure Props where
  login : String
  name : String
  email : String
  accessToken : Option String
deriving Repr, DecidableEq

/-! ## Response-text rendering helpers

The literal segments of the source template strings are reproduced
verbatim (apostrophes and braces written with `\x27`/`\x7b`/`\x7d`).
`JSON.stringify` bodies are rendered compactly: the pretty-printing
whitespace and the elision of `undefined` members are not modelled — no
claim depends on them.  Appends are grouped to the right so that the
leading literal of every template is syntactically the head. -/

def jsQuote (s : String) : String := "\"" ++ (s ++ "\"")

def jsonField (k v : String) : String := jsQuote k ++ (": " ++ v)

def jsonObj (fields : List String) : String :=
  "\x7b" ++ (String.intercalate ", " fields ++ "\x7d")

def jsonArr (items : List String) : String :=
  "[" ++ (String.intercalate ", " items ++ "]")

def jsonOptStr : Option String → String
  | some s => jsQuote s
  | none => "null"

/-- `${Math.round(code.length / 1024)}KB`. -/
def codeSizeKB (len : Nat) : String := toString ((2 * len + 1024) / 2048) ++ "KB"

/-- The credentials error of deployWorker / listWorkers / deleteWorker /
getWorkerStatus. -/
def credsSimpleText : String :=
  "**Error**\n\nCloudflare credentials not configured. Please set CLOUDFLARE_ACCOUNT_ID and CLOUDFLARE_API_TOKEN environment variables."

/-- `JSON.stringify({ missing: ... }, null, 2)` in the detailed
credentials error. -/
def missingCredsJson : String :=
  "\x7b\n  \"missing\": \"CLOUDFLARE_ACCOUNT_ID and CLOUDFLARE_API_TOKEN environment variables\"\n\x7d"

/-- The credentials error of the infrastructure tools (deployMCPServer,
setWorkerSecrets, createKVNamespace, manageDurableObjects). -/
def credsDetailedText : String :=
  "**Error**\n\nCloudflare credentials not configured\n\n**Details:**\n```json\n" ++
    (missingCredsJson ++ "\n```")

/-- Message of the TypeError raised by dereferencing a missing object. -/
def nullDerefMsg : String := "Cannot read properties of null"

/-! ## deployWorker (src/tools/deploy-worker.ts) -/

structure DeployWorkerArgs where
  name : String
  code : String
  description : Option String
deriving Repr, DecidableEq

inductive DeployWorkerOutcome : Type
  | validationError (msg : String)
  | credsError
  | deployThrew (msg : String)
  | deployFailed (msg : String)
  | deployed (name : String) (resultJson : String)
deriving Repr, DecidableEq

def DeployWorkerOutcome.isErr : DeployWorkerOutcome → Bool
  | .deployed _ _ => false
  | _ => true

/-- The `deployResult` object serialized in the success response. -/
def deployWorkerResultJson (props : Props) (a : DeployWorkerArgs)
    (w : Option CloudflareWorker) : String :=
  jsonObj
    [ jsonField "workerName" (jsQuote a.name),
      jsonField "workerId" (jsonOptStr (w.map (·.id))),
      jsonField "createdOn" (jsonOptStr (w.map (·.created_on))),
      jsonField "modifiedOn" (jsonOptStr (w.map (·.modified_on))),
      jsonField "description" (jsonOptStr a.description),
      jsonField "deployedBy" (jsQuote (props.login ++ (" (" ++ (props.name ++ ")")))),
      jsonField "codeSize" (jsQuote (codeSizeKB a.code.data.length)) ]

def renderDeployWorker : DeployWorkerOutcome → String
  | .validationError msg => "**Error**\n\nCode validation failed: " ++ msg
  | .credsError => credsSimpleText
  | .deployThrew msg => "**Error**\n\nDeployment error: " ++ msg
  | .deployFailed msg => "**Error**\n\nDeployment failed: " ++ msg
  | .deployed name json =>
    "**Success**\n\nWorker \x27" ++
      (name ++ ("\x27 deployed successfully\n\n**Result:**\n```json\n" ++ (json ++ "\n```")))

/-- The deployWorker handler.  Note the order of its guards: code
validation runs BEFORE the credentials check. -/
def runDeployWorker (env : Env) (props : Props) (deployO : ROut CloudflareWorker)
    (a : DeployWorkerArgs) : DeployWorkerOutcome × List RCall :=
  let validation := validateWorkerCode a.code
  if !validation.isValid then (.validationError (jsShow validation.error), [])
  else if credsMissing env then (.credsError, [])
  else
    let (res, calls) := deployWorkerApi a.name deployO
    match res with
    | .error m => (.deployThrew m, calls)
    | .ok r =>
      if !r.success then (.deployFailed (firstErrOr r "Unknown deployment error"), calls)
      else (.deployed a.name (deployWorkerResultJson props a r.result), calls)

/-! ## deleteWorker (src/tools/delete-worker.ts) -/

structure DeleteOracle where
  get : GetWorkerEnv
  del : ROut Unit
  now : String

inductive DeleteWorkerOutcome : Type
  | confirmError (name : String)
  | credsError
  | notFound (name : String)
  | deleteThrew (msg : String)
  | deleteFailed (msg : String)
  | nullWorkerError
  | deleted (name : String) (resultJson : String)
deriving Repr, DecidableEq

def DeleteWorkerOutcome.isErr : DeleteWorkerOutcome → Bool
  | .deleted _ _ => false
  | _ => true

def deletedResultJson (props : Props) (w : CloudflareWorker) (now : String) : String :=
  jsonObj
    [ jsonField "deletedWorker"
        (jsonObj
          [ jsonField "name" (jsQuote w.name),
            jsonField "id" (jsQuote w.id),
            jsonField "wasCreated" (jsQuote w.created_on),
            jsonField "lastModified" (jsQuote w.modified_on) ]),
      jsonField "deletedBy" (jsQuote (props.login ++ (" (" ++ (props.name ++ ")")))),
      jsonField "deletedAt" (jsQuote now),
      jsonField "warning" (jsQuote "This action cannot be undone") ]

def renderDeleteWorker : DeleteWorkerOutcome → String
  | .confirmError name =>
    "**Error**\n\nDeletion requires explicit confirmation. Set \x27confirm: true\x27 to delete worker \x27" ++
      (name ++ "\x27. **WARNING: This action cannot be undone.**")
  | .credsError => credsSimpleText
  | .notFound name =>
    "**Error**\n\nWorker \x27" ++
      (name ++ "\x27 not found. Use \x27listWorkers\x27 to see available workers.")
  | .deleteThrew msg => "**Error**\n\nError deleting worker: " ++ msg
  | .deleteFailed msg => "**Error**\n\nFailed to delete worker: " ++ msg
  | .nullWorkerError => "**Error**\n\nError deleting worker: " ++ nullDerefMsg
  | .deleted name json =>
    "**Success**\n\nWorker \x27" ++
      (name ++ ("\x27 has been permanently deleted\n\n**Result:**\n```json\n" ++ (json ++ "\n```")))

/-- The deleteWorker handler.  The existence check goes through
`getWorkerApi`; the delete call is issued as soon as that check reports
`success`.  `worker.id` is only dereferenced after a successful delete,
so a missing `result` on the check response surfaces as the caught
TypeError (`nullWorkerError`). -/
def runDeleteWorker (env : Env) (props : Props) (o : DeleteOracle)
    (name : String) (confirm : Bool) : DeleteWorkerOutcome × List RCall :=
  if !confirm then (.confirmError name, [])
  else if credsMissing env then (.credsError, [])
  else
    let (chk, gcalls) := getWorkerApi name o.get
    if !chk.success then (.notFound name, gcalls)
    else
      let (dres, dcalls) := deleteWorkerApi name o.del
      match dres with
      | .error m => (.deleteThrew m, gcalls ++ dcalls)
      | .ok r =>
        if !r.success then
          (.deleteFailed (firstErrOr r "Unknown deletion error"), gcalls ++ dcalls)
        else
          match chk.result with
          | none => (.nullWorkerError, gcalls ++ dcalls)
          | some w => (.deleted name (deletedResultJson props w o.now), gcalls ++ dcalls)

/-! ## listWorkers (src/tools/list-workers.ts) -/

inductive ListWorkersOutcome : Type
  | credsError
  | listThrew (msg : String)
  | listFailed (msg : String)
  | noWorkers
  | workersList (workers : List CloudflareWorker)
deriving Repr, DecidableEq

def ListWorkersOutcome.isErr : ListWorkersOutcome → Bool
  | .credsError => true
  | .listThrew _ => true
  | .listFailed _ => true
  | .noWorkers => false
  | .workersList _ => false

def workerInfoJson (w : CloudflareWorker) : String :=
  jsonObj
    [ jsonField "name" (jsQuote w.name),
      jsonField "id" (jsQuote w.id),
      jsonField "created" (jsQuote w.created_on),
      jsonField "modified" (jsQuote w.modified_on),
      jsonField "environment" (jsQuote (jsOr w.environment "production")),
      jsonField "usageModel" (jsQuote (jsOr w.usage_model "bundled")) ]

def renderListWorkers : ListWorkersOutcome → String
  | .credsError => credsSimpleText
  | .listThrew msg => "**Error**\n\nError listing workers: " ++ msg
  | .listFailed msg => "**Error**\n\nFailed to list workers: " ++ msg
  | .noWorkers =>
    "**No Workers Found**\n\nNo Cloudflare Workers are currently deployed in your account.\n\nUse the `deployWorker` tool to deploy your first worker."
  | .workersList ws =>
    "**Deployed Workers (" ++
      (toString ws.length ++
        (")**\n\n" ++
          (jsonArr (ws.map workerInfoJson) ++
            ("\n\n**Total workers:** " ++
              (toString ws.length ++
                "\n\n**Note:** Use `getWorkerStatus` to check individual worker health, or `deleteWorker` to remove a worker.")))))

def runListWorkers (env : Env) (o : ROut (List CloudflareWorker)) :
    ListWorkersOutcome × List RCall :=
  if credsMissing env then (.credsError, [])
  else
    let (res, calls) := listWorkersApi o
    match res with
    | .error m => (.listThrew m, calls)
    | .ok r =>
      if !r.success then (.listFailed (firstErrOr r "Unknown error listing workers"), calls)
      else
        let workers := r.result.getD []
        if workers.isEmpty then (.noWorkers, calls)
        else (.workersList workers, calls)

/-! ## createKVNamespace (src/tools/create-kv-namespace.ts)

This tool performs its own direct `fetch` of the KV endpoint; the
best-effort Supabase audit insert is caught and does not influence the
response, so it is not modelled. -/

structure CreateKVArgs where
  name : String
  title : String
  workerName : Option String
deriving Repr, DecidableEq

inductive CreateKVOutcome : Type
  | credsError
  | kvThrew (msg : String)
  | kvFailed (msg : String)
  | nullResultError
  | created (name : String) (resultJson : String)
deriving Repr, DecidableEq

def CreateKVOutcome.isErr : CreateKVOutcome → Bool
  | .created _ _ => false
  | _ => true

def createKVResultJson (a : CreateKVArgs) (kv : KVNamespace) : String :=
  jsonObj
    [ jsonField "id" (jsQuote kv.id),
      jsonField "name" (jsQuote a.name),
      jsonField "title" (jsQuote kv.title),
      jsonField "created" "true",
      jsonField "bindingConfig"
        (jsonObj
          [ jsonField "binding" (jsQuote a.name),
            jsonField "id" (jsQuote kv.id),
            jsonField "comment" (jsQuote "Add this to your wrangler.jsonc kv_namespaces array") ]),
      jsonField "wranglerConfig"
        (jsonObj
          [ jsonField "kv_namespaces"
              (jsonArr
                [jsonObj [jsonField "binding" (jsQuote a.name), jsonField "id" (jsQuote kv.id)]]) ]),
      jsonField "instructions"
        (jsQuote
          (match a.workerName with
           | some w =>
             "KV namespace created successfully. To bind it to worker \x27" ++
               (w ++ "\x27, add the binding config to wrangler.jsonc")
           | none =>
             "KV namespace created successfully. Add the binding config to your wrangler.jsonc file.")) ]

def renderCreateKV : CreateKVOutcome → String
  | .credsError => credsDetailedText
  | .kvThrew msg =>
    "**Error**\n\nUnexpected error creating KV namespace\n\n**Details:**\n```json\n" ++
      (jsonObj [jsonField "error" (jsQuote msg)] ++ "\n```")
  | .kvFailed msg => "**Error**\n\nFailed to create KV namespace: " ++ msg
  | .nullResultError =>
    "**Error**\n\nUnexpected error creating KV namespace\n\n**Details:**\n```json\n" ++
      (jsonObj [jsonField "error" (jsQuote nullDerefMsg)] ++ "\n```")
  | .created name json =>
    "**Success**\n\nKV namespace \x27" ++
      (name ++ ("\x27 created successfully\n\n**Result:**\n```json\n" ++ (json ++ "\n```")))

/-- The createKVNamespace handler.  On `success` with a missing `result`
object the `data.result.id` dereference throws and the outer catch
answers (`nullResultError`). -/
def runCreateKVNamespace (env : Env) (o : ROut KVNamespace) (a : CreateKVArgs) :
    CreateKVOutcome × List RCall :=
  if credsMissing env then (.credsError, [])
  else
    match o with
    | .error m => (.kvThrew m, [.kvCreate a.title])
    | .ok data =>
      if !data.success then
        (.kvFailed (firstErrOr data "Unknown error creating KV namespace"), [.kvCreate a.title])
      else
        match data.result with
        | none => (.nullResultError, [.kvCreate a.title])
        | some kv => (.created a.name (createKVResultJson a kv), [.kvCreate a.title])

/-! ## setWorkerSecrets (src/tools/set-worker-secrets.ts)

The standalone secret-batch tool.  It is stateless: the handler is a pure
function of its arguments and the network oracle, and it always processes
`secrets[0]`. -/

structure Secret where
  name : String
  value : String
deriving Repr, DecidableEq

/-- One entry of the handler's `results` array. -/
inductive SettleResult : Type
  | fulfilled (value : String)
  | rejected (secretName : String) (msg : String)
  | pending (secretName : String) (note : String)
deriving Repr, DecidableEq

def pendingNote : String := "Call setWorkerSecrets again for this secret"

/-- The `result` object serialized into the response. -/
structure SecretsBatchResult where
  workerName : String
  environment : String
  totalSecrets : Nat
  results : List SettleResult
  successfulSecrets : List String
  failedSecrets : List (String × String)
  pendingSecrets : List String
  statusField : String
  wranglerEquivalent : List String
  instructions : String
deriving Repr, DecidableEq

inductive SetSecretsOutcome : Type
  | credsError
  | emptyListError
  | failureEnvelope (r : SecretsBatchResult)
  | batchEnvelope (status : String) (r : SecretsBatchResult)
deriving Repr, DecidableEq

def SetSecretsOutcome.isErr : SetSecretsOutcome → Bool
  | .credsError => true
  | .emptyListError => true
  | .failureEnvelope _ => true
  | .batchEnvelope _ _ => false

def settleResultJson : SettleResult → String
  | .fulfilled v => jsonObj [jsonField "status" (jsQuote "fulfilled"), jsonField "value" (jsQuote v)]
  | .rejected n m =>
    jsonObj [jsonField "status" (jsQuote "rejected"), jsonField "secretName" (jsQuote n),
             jsonField "reason" (jsQuote m)]
  | .pending n note =>
    jsonObj [jsonField "status" (jsQuote "pending"), jsonField "secretName" (jsQuote n),
             jsonField "note" (jsQuote note)]

def batchResultJson (r : SecretsBatchResult) : String :=
  jsonObj
    [ jsonField "workerName" (jsQuote r.workerName),
      jsonField "environment" (jsQuote r.environment),
      jsonField "totalSecrets" (toString r.totalSecrets),
      jsonField "successfulSecrets" (jsonArr (r.successfulSecrets.map jsQuote)),
      jsonField "failedSecrets"
        (jsonArr (r.failedSecrets.map fun e =>
          jsonObj [jsonField "secret" (jsQuote e.1), jsonField "error" (jsQuote e.2)])),
      jsonField "pendingSecrets" (jsonArr (r.pendingSecrets.map jsQuote)),
      jsonField "status" (jsQuote r.statusField),
      jsonField "wranglerEquivalent" (jsonArr (r.wranglerEquivalent.map jsQuote)),
      jsonField "instructions" (jsQuote r.instructions) ]

def renderSetSecrets : SetSecretsOutcome → String
  | .credsError => credsDetailedText
  | .emptyListError =>
    "**Error**\n\nUnexpected error setting worker secrets\n\n**Details:**\n```json\n" ++
      (jsonObj [jsonField "error" (jsQuote "Cannot read properties of undefined")] ++ "\n```")
  | .failureEnvelope r =>
    "**Error**\n\nFailed to set secrets for \x27" ++
      (r.workerName ++ ("\x27\n\n**Details:**\n```json\n" ++ (batchResultJson r ++ "\n```")))
  | .batchEnvelope status r =>
    (if status = "SUCCESS" then "**Success**\n\n" else "**Partial Success**\n\n") ++
      (r.instructions ++ ("\n\n**Result:**\n```json\n" ++ (batchResultJson r ++ "\n```")))

/-- Settlement of the one processed secret: a provider envelope with
`success:false` raises (message `errors?.[0]?.message || 'Failed to set
secret …'`) and is caught as `rejected`, as is a thrown transport error. -/
def settleFirstSecret (res : ROut Unit) (secretName : String) : SettleResult :=
  match res with
  | .ok r =>
    if r.success then .fulfilled secretName
    else .rejected secretName (firstErrOr r ("Failed to set secret " ++ secretName))
  | .error m => .rejected secretName m

/-- The setWorkerSecrets handler.  `secretO` gives the network outcome per
secret name.  Only the head of the list is ever sent; an empty list (ruled
out by the schema) would dereference `undefined` and land in the outer
catch. -/
def runSetWorkerSecrets (env : Env) (secretO : String → ROut Unit)
    (workerName : String) (secrets : List Secret) (environment : Option String) :
    SetSecretsOutcome × List RCall :=
  if credsMissing env then (.credsError, [])
  else
    match secrets with
    | [] => (.emptyListError, [])
    | first :: rest =>
      let (res, calls) := setWorkerSecretApi workerName first.name (secretO first.name)
      let firstResult := settleFirstSecret res first.name
      let results := firstResult :: rest.map (fun s => SettleResult.pending s.name pendingNote)
      let successfulSecrets :=
        match firstResult with
        | .fulfilled v => [v]
        | _ => []
      let errors :=
        match firstResult with
        | .rejected n m => [(n, jsOrStr m "Unknown error")]
        | _ => []
      let pending := rest.map (·.name)
      let status :=
        if errors.isEmpty then "SUCCESS"
        else if successfulSecrets.isEmpty then "FAILURE"
        else "PARTIAL"
      let wranglerCommands := successfulSecrets.map
        (fun n => "wrangler secret put " ++ (n ++ (" --name " ++ workerName)))
      let instructions :=
        if !pending.isEmpty then
          "Processed 1 of " ++
            (toString secrets.length ++
              (" secrets. Call setWorkerSecrets again for remaining " ++
                (toString pending.length ++ " secrets.")))
        else if status = "SUCCESS" then
          "All " ++
            (toString secrets.length ++
              (" secrets successfully configured for \x27" ++ (workerName ++ "\x27")))
        else if status = "PARTIAL" then
          toString successfulSecrets.length ++
            (" of " ++
              (toString secrets.length ++
                (" secrets configured. " ++ (toString errors.length ++ " failed."))))
        else "Failed to set secrets for \x27" ++ (workerName ++ "\x27")
      let r : SecretsBatchResult :=
        { workerName := workerName,
          environment := environment.getD "production",
          totalSecrets := secrets.length,
          results := results,
          successfulSecrets := successfulSecrets,
          failedSecrets := errors,
          pendingSecrets := pending,
          statusField := if !pending.isEmpty then "PARTIAL" else status,
          wranglerEquivalent := wranglerCommands,
          instructions := instructions }
      if status = "FAILURE" then (.failureEnvelope r, calls)
      else (.batchEnvelope status r, calls)

/-- The `result.status` field of the response, when present. -/
def batchResultOf : SetSecretsOutcome → Option SecretsBatchResult
  | .failureEnvelope r => some r
  | .batchEnvelope _ r => some r
  | _ => none

/-- Did the remote secret-set call for this outcome succeed? -/
def secretOutcomeOk (res : ROut Unit) : Bool :=
  match res with
  | .ok r => r.success
  | .error _ => false

/-! ## deployMCPServer (src/tools/deploy-mcp-server.ts) -/

structure StepEntry (α : Type) where
  status : String
  result : Option α
deriving Repr, DecidableEq

/-- Payload recorded by phase 3 (Durable Objects), which makes no remote
call. -/
structure DOConfigNote where
  name : String
  className : String
  note : String
deriving Repr, DecidableEq

structure SecretSetResult where
  name : String
  status : String
  error : Option String
deriving Repr, DecidableEq

structure DeploymentSteps where
  kvNamespace : StepEntry KVNamespace
  durableObjects : StepEntry DOConfigNote
  workerDeployment : StepEntry CloudflareWorker
  secrets : StepEntry (List SecretSetResult)
deriving Repr, DecidableEq

structure MCPEndpoints where
  worker : String
  oauth : String
  mcp : String
deriving Repr, DecidableEq

structure WranglerConfig where
  name : String
  kvNamespaces : List (String × String)
  doBindingName : String
  doClassName : String
  migrationTag : String
  accountId : String
deriving Repr, DecidableEq

structure MCPDeploymentResult where
  name : String
  status : String
  endpoints : MCPEndpoints
  kvNamespace : Option KVNamespace
  secretsConfigured : List String
  secretsFailed : List SecretSetResult
  wranglerConfig : WranglerConfig
  deploymentSteps : DeploymentSteps
  deployedBy : String
  deployedAt : String
deriving Repr, DecidableEq

inductive MCPDeployOutcome : Type
  | credsError
  | deployFailed (msg : String) (completedSteps : DeploymentSteps)
  | deployed (r : MCPDeploymentResult)
deriving Repr, DecidableEq

def MCPDeployOutcome.isErr : MCPDeployOutcome → Bool
  | .deployed _ => false
  | _ => true

structure MCPArgs where
  name : String
  code : String
  githubClientId : String
  githubClientSecret : String
  databaseUrl : Option String
  supabaseUrl : Option String
  supabaseAnonKey : Option String
deriving Repr, DecidableEq

structure MCPOracle where
  kv : ROut KVNamespace
  deploy : ROut CloudflareWorker
  secret : String → ROut Unit
  now : String

/-- An optional secret is pushed only when its value is truthy. -/
def optSecret (n : String) (v : Option String) : List Secret :=
  if strTruthy v then [⟨n, v.getD ""⟩] else []

/-- The `secretsToSet` list (two mandatory OAuth values plus the supplied
optional ones, in source order). -/
def secretsToSet (a : MCPArgs) : List Secret :=
  [⟨"GITHUB_CLIENT_ID", a.githubClientId⟩, ⟨"GITHUB_CLIENT_SECRET", a.githubClientSecret⟩] ++
    (optSecret "DATABASE_URL" a.databaseUrl ++
      (optSecret "SUPABASE_URL" a.supabaseUrl ++
        optSecret "SUPABASE_ANON_KEY" a.supabaseAnonKey))

/-- Phase 1 (KV namespace): non-fatal.  A `success` envelope whose
`result` is missing still fails the step, because `kvData.result.id` is
dereferenced inside the step's try block. -/
def kvStepResult (kvRes : ROut KVNamespace) : StepEntry KVNamespace :=
  match kvRes with
  | .ok r =>
    if r.success then
      match r.result with
      | some kv => ⟨"success", some kv⟩
      | none => ⟨"failed", none⟩
    else ⟨"failed", none⟩
  | .error _ => ⟨"failed", none⟩

/-- The `deploymentSteps` snapshot at the moment phase 2 fails: phase 1
recorded, everything after it still `pending` (including
`workerDeployment` itself, which the catch never updates). -/
def stepsAfterKV (kvStep : StepEntry KVNamespace) : DeploymentSteps :=
  ⟨kvStep, ⟨"pending", none⟩, ⟨"pending", none⟩, ⟨"pending", none⟩⟩

/-- Outcome of one secret of phase 4. -/
def mcpSecretResult (s : Secret) (res : ROut Unit) : SecretSetResult :=
  match res with
  | .ok sr =>
    if sr.success then ⟨s.name, "success", none⟩
    else ⟨s.name, "failed", sr.errors.head?.bind (fun e => e.message)⟩
  | .error m => ⟨s.name, "failed", some m⟩

/-- `true` exactly when phase 2 (CodeDeploy) fails: the remote deploy
call throws or returns `success:false`. -/
def deployPhaseFails (o : MCPOracle) : Bool :=
  match o.deploy with
  | .error _ => true
  | .ok r => !r.success

/-- Phase 4's per-secret results, in `secretsToSet` order. -/
def mcpSecretResults (a : MCPArgs) (o : MCPOracle) : List SecretSetResult :=
  (secretsToSet a).map fun s => mcpSecretResult s (o.secret s.name)

/-- Phase 4's step status: all success / some success / none. -/
def mcpSecretsStatus (rs : List SecretSetResult) : String :=
  if rs.all (·.status = "success") then "success"
  else if rs.any (·.status = "success") then "partial"
  else "failed"

/-- The remote calls of phase 4 (one secret `PUT` per entry, issued
sequentially). -/
def mcpSecretCalls (a : MCPArgs) (o : MCPOracle) : List RCall :=
  ((secretsToSet a).map fun s => (setWorkerSecretApi a.name s.name (o.secret s.name)).2).flatten

/-- The full `deploymentSteps` object on the success path. -/
def mcpSuccessSteps (o : MCPOracle) (a : MCPArgs) (r : CFResponse CloudflareWorker) :
    DeploymentSteps :=
  ⟨kvStepResult o.kv,
   ⟨"success", some ⟨"MCP_OBJECT", "MyMCP", "Configure in wrangler.toml for full functionality"⟩⟩,
   ⟨"success", r.result⟩,
   ⟨mcpSecretsStatus (mcpSecretResults a o), some (mcpSecretResults a o)⟩⟩

/-- The `deploymentResult` object of the success path; its `status` field
is the literal `'deployed'`. -/
def mcpSuccessResult (env : Env) (props : Props) (o : MCPOracle) (a : MCPArgs)
    (r : CFResponse CloudflareWorker) : MCPDeploymentResult :=
  let kvStep := kvStepResult o.kv
  let secretResults := mcpSecretResults a o
  let wcfg : WranglerConfig :=
    { name := a.name,
      kvNamespaces :=
        match kvStep.result with
        | some kv => [("OAUTH_KV", kv.id)]
        | none => [],
      doBindingName := "MCP_OBJECT",
      doClassName := "MyMCP",
      migrationTag := "v1",
      accountId := env.cloudflareAccountId.getD "" }
  let base := "https://" ++ (a.name ++ ("." ++ (props.login ++ ".workers.dev")))
  { name := a.name,
    status := "deployed",
    endpoints := ⟨base, base ++ "/oauth/authorize", base ++ "/mcp"⟩,
    kvNamespace := kvStep.result,
    secretsConfigured := (secretResults.filter (·.status = "success")).map (·.name),
    secretsFailed := secretResults.filter (·.status = "failed"),
    wranglerConfig := wcfg,
    deploymentSteps := mcpSuccessSteps o a r,
    deployedBy := props.login ++ (" (" ++ (props.name ++ ")")),
    deployedAt := o.now }

/-- The deployMCPServer orchestrator.  Phase order: KV namespace
(non-fatal) → worker deployment (fatal) → Durable Objects note → secrets
(sequential, each independently captured).  On the success path the
response's `status` field is always the literal `'deployed'`. -/
def runDeployMCPServer (env : Env) (props : Props) (o : MCPOracle) (a : MCPArgs) :
    MCPDeployOutcome × List RCall :=
  if credsMissing env then (.credsError, [])
  else
    let kvTitle := a.name ++ "-oauth-kv"
    let (kvRes, kvCalls) := createKVNamespaceApi kvTitle o.kv
    let kvStep := kvStepResult kvRes
    let (depRes, depCalls) := deployWorkerApi a.name o.deploy
    match depRes with
    | .error m => (.deployFailed m (stepsAfterKV kvStep), kvCalls ++ depCalls)
    | .ok r =>
      if !r.success then
        (.deployFailed (firstErrOr r "Worker deployment failed") (stepsAfterKV kvStep),
         kvCalls ++ depCalls)
      else
        (.deployed (mcpSuccessResult env props o a r),
         kvCalls ++ depCalls ++ mcpSecretCalls a o)

def stepJson {α : Type} (payload : α → String) (e : StepEntry α) : String :=
  jsonObj
    [ jsonField "status" (jsQuote e.status),
      jsonField "result" (match e.result with | some x => payload x | none => "null") ]

def kvJson (kv : KVNamespace) : String :=
  jsonObj
    [ jsonField "id" (jsQuote kv.id), jsonField "title" (jsQuote kv.title),
      jsonField "supports_url_encoding" (if kv.supportsUrlEncoding then "true" else "false") ]

def workerJson (w : CloudflareWorker) : String :=
  jsonObj
    [ jsonField "id" (jsQuote w.id), jsonField "name" (jsQuote w.name),
      jsonField "created_on" (jsQuote w.created_on),
      jsonField "modified_on" (jsQuote w.modified_on) ]

def doNoteJson (d : DOConfigNote) : String :=
  jsonObj
    [ jsonField "name" (jsQuote d.name), jsonField "className" (jsQuote d.className),
      jsonField "note" (jsQuote d.note) ]

def secretSetResultJson (s : SecretSetResult) : String :=
  jsonObj
    [ jsonField "name" (jsQuote s.name), jsonField "status" (jsQuote s.status),
      jsonField "error" (jsonOptStr s.error) ]

def stepsJson (st : DeploymentSteps) : String :=
  jsonObj
    [ jsonField "kvNamespace" (stepJson kvJson st.kvNamespace),
      jsonField "durableObjects" (stepJson doNoteJson st.durableObjects),
      jsonField "workerDeployment" (stepJson workerJson st.workerDeployment),
      jsonField "secrets" (stepJson (fun l => jsonArr (l.map secretSetResultJson)) st.secrets) ]

def wranglerJson (w : WranglerConfig) : String :=
  jsonObj
    [ jsonField "name" (jsQuote w.name),
      jsonField "main" (jsQuote "src/index.ts"),
      jsonField "compatibility_date" (jsQuote "2023-10-30"),
      jsonField "node_compat" "true",
      jsonField "kv_namespaces"
        (jsonArr (w.kvNamespaces.map fun p =>
          jsonObj [jsonField "binding" (jsQuote p.1), jsonField "id" (jsQuote p.2)])),
      jsonField "durable_objects"
        (jsonObj
          [jsonField "bindings"
            (jsonArr
              [jsonObj [jsonField "name" (jsQuote w.doBindingName),
                        jsonField "class_name" (jsQuote w.doClassName)]])]),
      jsonField "migrations"
        (jsonArr
          [jsonObj [jsonField "tag" (jsQuote w.migrationTag),
                    jsonField "new_classes" (jsonArr [jsQuote w.doClassName])]]),
      jsonField "vars" (jsonObj [jsonField "CLOUDFLARE_ACCOUNT_ID" (jsQuote w.accountId)]) ]

def mcpResultJson (r : MCPDeploymentResult) : String :=
  jsonObj
    [ jsonField "name" (jsQuote r.name),
      jsonField "status" (jsQuote r.status),
      jsonField "endpoints"
        (jsonObj
          [ jsonField "worker" (jsQuote r.endpoints.worker),
            jsonField "oauth" (jsQuote r.endpoints.oauth),
            jsonField "mcp" (jsQuote r.endpoints.mcp) ]),
      jsonField "kvNamespace" (match r.kvNamespace with | some kv => kvJson kv | none => "null"),
      jsonField "secrets"
        (jsonObj
          [ jsonField "configured" (jsonArr (r.secretsConfigured.map jsQuote)),
            jsonField "failed" (jsonArr (r.secretsFailed.map secretSetResultJson)) ]),
      jsonField "wranglerConfig" (wranglerJson r.wranglerConfig),
      jsonField "deploymentSteps" (stepsJson r.deploymentSteps),
      jsonField "deployedBy" (jsQuote r.deployedBy),
      jsonField "deployedAt" (jsQuote r.deployedAt) ]

def renderDeployMCPServer : MCPDeployOutcome → String
  | .credsError => credsDetailedText
  | .deployFailed msg steps =>
    "**Error**\n\nWorker deployment failed\n\n**Details:**\n```json\n" ++
      (jsonObj [jsonField "error" (jsQuote msg), jsonField "completedSteps" (stepsJson steps)] ++
        "\n```")
  | .deployed r =>
    "**Success**\n\nMCP Server \x27" ++
      (r.name ++
        ("\x27 deployed successfully!\n\n**Endpoints:**\n- Worker: " ++
          (r.endpoints.worker ++
            ("\n- OAuth: " ++
              (r.endpoints.oauth ++
                ("\n- MCP: " ++
                  (r.endpoints.mcp ++
                    ("\n\n**Configuration:**\n```json\n" ++
                      (mcpResultJson r ++
                        ("\n```\n\n**Wrangler Config:**\n```jsonc\n" ++
                          (wranglerJson r.wranglerConfig ++ "\n```")))))))))))

/-- Overall status string reported in the orchestrator's success
response, when one is produced. -/
def mcpOverallStatus : MCPDeployOutcome → Option String
  | .deployed r => some r.status
  | _ => none

/-- Recorded status of the Namespace phase, when the outcome carries
step results. -/
def mcpKvStepStatus : MCPDeployOutcome → Option String
  | .deployed r => some r.deploymentSteps.kvNamespace.status
  | .deployFailed _ steps => some steps.kvNamespace.status
  | .credsError => none

/-! ## Database tools (src/tools/database-tools.ts)

The SQL validator and read/write classifier live in
src/database/security.ts, an out-of-scope collaborator per the spec;
the handlers are parameterized by their results (`SqlValidation`,
`isWrite`).  A Supabase RPC reply is `{data, error}`: a truthy `error`
is re-thrown into the catch, as is a rejected promise; `data` is
represented by the features the handlers inspect. -/

structure SqlValidation where
  isValid : Bool
  error : Option String
deriving Repr, DecidableEq

/-- The JSON value `data`, by the features the handlers inspect
(`Array.isArray`, `.length`, `JSON.stringify`). -/
structure RpcData where
  isArray : Bool
  arrayLength : Nat
  rendered : String
deriving Repr, DecidableEq

inductive RpcOut (α : Type) : Type
  | rejected (msg : String)
  | errorField (msg : String)
  | ok (data : α)

structure TableColumn where
  table_name : String
  column_name : String
  data_type : String
  is_nullable : String
  column_default : Option String
deriving Repr, DecidableEq

structure ColumnInfo where
  name : String
  type : String
  nullable : Bool
  default : Option String
deriving Repr, DecidableEq

structure TableInfo where
  name : String
  schema : String
  columns : List ColumnInfo
deriving Repr, DecidableEq

def colInfo (c : TableColumn) : ColumnInfo :=
  ⟨c.column_name, c.data_type, c.is_nullable = "YES", c.column_default⟩

/-- Insertion-ordered grouping of columns by table (the `Map` loop). -/
def insertCol (acc : List TableInfo) (c : TableColumn) : List TableInfo :=
  if acc.any (·.name = c.table_name) then
    acc.map fun t =>
      if t.name = c.table_name then { t with columns := t.columns ++ [colInfo c] } else t
  else acc ++ [⟨c.table_name, "public", [colInfo c]⟩]

def groupColumns (cols : List TableColumn) : List TableInfo :=
  cols.foldl insertCol []

/-- The missing-variable list of the Supabase configuration check. -/
def supabaseMissingList (env : Env) : List String :=
  (if !strTruthy env.supabaseUrl then ["SUPABASE_URL"] else []) ++
    (if !strTruthy env.supabaseAnonKey then ["SUPABASE_ANON_KEY"] else [])

def supabaseConfigText (missing : List String) : String :=
  "**Error**\n\nSupabase configuration missing. Please set the following environment variables: " ++
    String.intercalate ", " missing

inductive ListTablesOutcome : Type
  | configError (missing : List String)
  | rpcError (msg : String)
  | badFormat
  | tables (l : List TableInfo)
deriving Repr, DecidableEq

def ListTablesOutcome.isErr : ListTablesOutcome → Bool
  | .tables _ => false
  | _ => true

def columnInfoJson (c : ColumnInfo) : String :=
  jsonObj
    [ jsonField "name" (jsQuote c.name), jsonField "type" (jsQuote c.type),
      jsonField "nullable" (if c.nullable then "true" else "false"),
      jsonField "default" (jsonOptStr c.default) ]

def tableInfoJson (t : TableInfo) : String :=
  jsonObj
    [ jsonField "name" (jsQuote t.name), jsonField "schema" (jsQuote t.schema),
      jsonField "columns" (jsonArr (t.columns.map columnInfoJson)) ]

def renderListTables : ListTablesOutcome → String
  | .configError missing => supabaseConfigText missing
  | .rpcError msg => "**Error**\n\nError retrieving database schema: " ++ msg
  | .badFormat => "**Error**\n\nNo table information available or unexpected response format."
  | .tables l =>
    "**Database Tables and Schema**\n\n" ++
      (jsonArr (l.map tableInfoJson) ++
        ("\n\n**Total tables found:** " ++
          (toString l.length ++
            "\n\n**Note:** Use the `queryDatabase` tool to run SELECT queries, or `executeDatabase` tool for write operations (if you have write access).")))

/-- listTables.  `rpc = .ok none` models a null / non-array `data`. -/
def runListTables (env : Env) (rpc : RpcOut (Option (List TableColumn))) :
    ListTablesOutcome :=
  let missing := supabaseMissingList env
  if !missing.isEmpty then .configError missing
  else
    match rpc with
    | .rejected m => .rpcError m
    | .errorField m => .rpcError m
    | .ok none => .badFormat
    | .ok (some cols) => .tables (groupColumns cols)

inductive QueryDbOutcome : Type
  | invalidSql (msg : String)
  | writeRejected
  | configError (missing : List String)
  | rpcError (msg : String)
  | queryResults (sql : String) (data : RpcData)
deriving Repr, DecidableEq

def QueryDbOutcome.isErr : QueryDbOutcome → Bool
  | .queryResults _ _ => false
  | _ => true

def renderQueryDb : QueryDbOutcome → String
  | .invalidSql msg => "**Error**\n\nInvalid SQL query: " ++ msg
  | .writeRejected =>
    "**Error**\n\nWrite operations are not allowed with this tool. Use the `executeDatabase` tool if you have write permissions (requires special GitHub username access)."
  | .configError missing => supabaseConfigText missing
  | .rpcError msg => "**Error**\n\nDatabase query error: " ++ msg
  | .queryResults sql data =>
    "**Query Results**\n```sql\n" ++
      (sql ++
        ("\n```\n\n**Results:**\n```json\n" ++
          (data.rendered ++
            ("\n```\n\n**Rows returned:** " ++
              (if data.isArray then toString data.arrayLength else "1")))))

def runQueryDatabase (env : Env) (validation : SqlValidation) (isWrite : Bool)
    (rpc : RpcOut RpcData) (sql : String) : QueryDbOutcome :=
  if !validation.isValid then .invalidSql (jsShow validation.error)
  else if isWrite then .writeRejected
  else
    let missing := supabaseMissingList env
    if !missing.isEmpty then .configError missing
    else
      match rpc with
      | .rejected m => .rpcError m
      | .errorField m => .rpcError m
      | .ok data => .queryResults sql data

inductive ExecuteDbOutcome : Type
  | invalidSql (msg : String)
  | configError (missing : List String)
  | rpcError (msg : String)
  | executed (isWrite : Bool) (sql : String) (data : RpcData) (login : String) (userName : String)
deriving Repr, DecidableEq

def ExecuteDbOutcome.isErr : ExecuteDbOutcome → Bool
  | .executed _ _ _ _ _ => false
  | _ => true

def renderExecuteDb : ExecuteDbOutcome → String
  | .invalidSql msg => "**Error**\n\nInvalid SQL statement: " ++ msg
  | .configError missing => supabaseConfigText missing
  | .rpcError msg => "**Error**\n\nDatabase execution error: " ++ msg
  | .executed isWrite sql data login userName =>
    (if isWrite then "**Write Operation" else "**Read Operation") ++
      (" Executed Successfully**\n```sql\n" ++
        (sql ++
          ("\n```\n\n**Results:**\n```json\n" ++
            (data.rendered ++
              ("\n```\n\n" ++
                ((if isWrite then "**⚠️ Database was modified**"
                  else "**Rows returned:** " ++
                    (if data.isArray then toString data.arrayLength else "1")) ++
                  ("\n\n**Executed by:** " ++
                    (login ++ (" (" ++ (userName ++ ")"))))))))))

def runExecuteDatabase (env : Env) (props : Props) (validation : SqlValidation)
    (isWrite : Bool) (rpc : RpcOut RpcData) (sql : String) : ExecuteDbOutcome :=
  if !validation.isValid then .invalidSql (jsShow validation.error)
  else
    let missing := supabaseMissingList env
    if !missing.isEmpty then .configError missing
    else
      match rpc with
      | .rejected m => .rpcError m
      | .errorField m => .rpcError m
      | .ok data => .executed isWrite sql data props.login props.name

/-! ## manageDurableObjects (src/tools/manage-durable-objects.ts)

Pure configuration synthesis: no control-plane call is made.  The
best-effort Supabase audit insert is caught and not modelled. -/

structure Migration where
  tag : String
  newClasses : Option (List String)
deriving Repr, DecidableEq

structure ManageDOArgs where
  workerName : String
  className : String
  scriptName : Option String
  environment : Option String
  migrations : Option Migration
deriving Repr, DecidableEq

inductive ManageDOOutcome : Type
  | credsError
  | configured (className : String) (workerName : String) (resultJson : String)
deriving Repr, DecidableEq

def ManageDOOutcome.isErr : ManageDOOutcome → Bool
  | .credsError => true
  | .configured _ _ _ => false

def strToUpper (s : String) : String := s.map Char.toUpper

def strToLower (s : String) : String := s.map Char.toLower

def doInstructions (a : ManageDOArgs) : String :=
  String.intercalate "\n"
    ([ "1. Add the Durable Object class \x27" ++ (a.className ++ "\x27 to your worker code"),
       "2. Export the class from your worker: export \x7b " ++ (a.className ++ " \x7d"),
       "3. Add the binding configuration to your wrangler.jsonc file",
       "4. Deploy with: wrangler publish" ++
         (match a.migrations with
          | some m => if m.newClasses.isSome then " --new-class " ++ a.className else ""
          | none => "") ] ++
      (match a.migrations with
       | some m => ["5. Migration \x27" ++ (m.tag ++ "\x27 has been applied")]
       | none => []))

def manageDOResultJson (a : ManageDOArgs) (nowMs : Nat) : String :=
  jsonObj
    [ jsonField "configured" "true",
      jsonField "className" (jsQuote a.className),
      jsonField "bindingName" (jsQuote (strToUpper a.className ++ "_OBJECT")),
      jsonField "namespace_id"
        (jsQuote ("do_" ++ (strToLower a.className ++ ("_" ++ toString nowMs)))),
      jsonField "script_name" (jsQuote (jsOr a.scriptName a.workerName)),
      jsonField "environment" (jsQuote (jsOr a.environment "production")),
      jsonField "migration"
        (match a.migrations with
         | some m =>
           jsonObj
             [ jsonField "tag" (jsQuote m.tag),
               jsonField "status" (jsQuote "configuration_needed"),
               jsonField "note"
                 (jsQuote "Add migration config to wrangler.toml and deploy with wrangler deploy") ]
         | none => "null"),
      jsonField "wranglerConfig"
        (jsonObj
          [jsonField "durable_objects"
            (jsonObj
              [jsonField "bindings"
                (jsonArr
                  [jsonObj
                    ([ jsonField "name" (jsQuote (strToUpper a.className ++ "_OBJECT")),
                       jsonField "class_name" (jsQuote a.className) ] ++
                      (if strTruthy a.scriptName then
                        [jsonField "script_name" (jsQuote (jsOr a.scriptName a.workerName))]
                       else []))])])]),
      jsonField "instructions" (jsQuote (doInstructions a)) ]

def renderManageDO : ManageDOOutcome → String
  | .credsError => credsDetailedText
  | .configured className workerName json =>
    "**Success**\n\nDurable Object \x27" ++
      (className ++
        ("\x27 configured for worker \x27" ++
          (workerName ++ ("\x27\n\n**Result:**\n```json\n" ++ (json ++ "\n```")))))

def runManageDurableObjects (env : Env) (a : ManageDOArgs) (nowMs : Nat) :
    ManageDOOutcome × List RCall :=
  if credsMissing env then (.credsError, [])
  else (.configured a.className a.workerName (manageDOResultJson a nowMs), [])

/-! ## whoami (src/tools/whoami.ts) -/

def whoamiText (props : Props) : String :=
  "**Current User Information**\n\n**Login:** " ++
    (props.login ++
      ("\n**Name:** " ++
        (props.name ++
          ("\n**Email:** " ++
            (props.email ++
              ("\n\n**OAuth Access Token:** " ++
                ((if strTruthy props.accessToken then "Present" else "Missing") ++
                  "\n\n**Debug Info:** This shows the user context passed through OAuth authentication.")))))))

/-! ## getWorkerStatus (src/tools/get-worker-status.ts, in
src/unnamed/part_003) -/

inductive GetStatusOutcome : Type
  | credsError
  | workerNotFound (name : String)
  | statusFailed (msg : String)
  | nullWorkerError
  | statusOk (name : String) (statusJson : String) (uptimeDays daysSinceUpdate : Int)
deriving Repr, DecidableEq

def GetStatusOutcome.isErr : GetStatusOutcome → Bool
  | .statusOk _ _ _ _ => false
  | _ => true

/-- Clock and `new Date(string)` parsing for the uptime computation
(`parseMs` gives the epoch milliseconds of a parsed date string). -/
structure GetStatusOracle where
  get : GetWorkerEnv
  nowMs : Int
  parseMs : String → Int

/-- The `statusInfo` object serialized into the success response. -/
def statusInfoJson (env : Env) (w : CloudflareWorker)
    (uptimeDays daysSinceUpdate : Int) : String :=
  jsonObj
    [ jsonField "name" (jsQuote w.name),
      jsonField "id" (jsQuote w.id),
      jsonField "status" (jsQuote "Running"),
      jsonField "environment" (jsQuote (jsOr w.environment "production")),
      jsonField "usageModel" (jsQuote (jsOr w.usage_model "bundled")),
      jsonField "compatibilityDate" (jsonOptStr w.compatibility_date),
      jsonField "created" (jsQuote w.created_on),
      jsonField "lastModified" (jsQuote w.modified_on),
      jsonField "uptimeDays" (toString uptimeDays),
      jsonField "daysSinceLastUpdate" (toString daysSinceUpdate),
      jsonField "url"
        (jsQuote ("https://" ++
          (w.name ++ ("." ++ ((env.cloudflareAccountId.getD "").take 8 ++ ".workers.dev"))))) ]

def renderGetStatus : GetStatusOutcome → String
  | .credsError => credsSimpleText
  | .workerNotFound name =>
    "**Error**\n\nWorker \x27" ++
      (name ++ "\x27 not found. Use \x27listWorkers\x27 to see available workers.")
  | .statusFailed msg => "**Error**\n\nFailed to get worker status: " ++ msg
  | .nullWorkerError => "**Error**\n\nError checking worker status: " ++ nullDerefMsg
  | .statusOk name json uptimeDays daysSinceUpdate =>
    "**Worker Status: " ++
      (name ++
        ("**\n\n" ++
          (json ++
            ("\n\n**Health:** Running\n**Uptime:** " ++
              (toString uptimeDays ++
                (" days\n**Last Updated:** " ++
                  (toString daysSinceUpdate ++
                    " days ago\n\n**Note:** Worker appears to be deployed and accessible. Use the worker URL to test functionality.")))))))

/-- The getWorkerStatus handler (registerGetWorkerStatus).  An
unsuccessful get answers the not-found text when `errors[0].code` is
10007 and the generic failure text otherwise; a `success:true` envelope
with a missing `result` throws on `worker.created_on` and lands in the
outer catch (`nullWorkerError`); otherwise uptime day counts are derived
from the clock (`Math.floor` of a millisecond difference over a day,
i.e. floor division). -/
def runGetWorkerStatus (env : Env) (o : GetStatusOracle) (name : String) :
    GetStatusOutcome × List RCall :=
  if credsMissing env then (.credsError, [])
  else
    let (r, calls) := getWorkerApi name o.get
    if !r.success then
      if firstErrCodeIs10007 r then (.workerNotFound name, calls)
      else (.statusFailed (firstErrOr r "Worker not found"), calls)
    else
      match r.result with
      | none => (.nullWorkerError, calls)
      | some worker =>
        let uptimeDays := Int.fdiv (o.nowMs - o.parseMs worker.created_on) 86400000
        let daysSinceUpdate := Int.fdiv (o.nowMs - o.parseMs worker.modified_on) 86400000
        (.statusOk name (statusInfoJson env worker uptimeDays daysSinceUpdate)
          uptimeDays daysSinceUpdate, calls)

/-! ## Concrete fixtures (shared by witnesses and counterexamples) -/

def envOkW : Env := ⟨some "acct", some "tok", none, none⟩
def envNoneW : Env := ⟨none, none, none, none⟩
def propsW : Props := ⟨"admin", "Admin User", "a@b.c", none⟩
def okUnitResp : ROut Unit := .ok ⟨true, [], [], none⟩
def failUnitResp : ROut Unit := .ok ⟨false, [⟨none, some "boom"⟩], [], none⟩
def okKVResp : ROut KVNamespace := .ok ⟨true, [], [], some ⟨"kv-id-1", "srv-oauth-kv", true⟩⟩
def okWorkerResp : ROut CloudflareWorker :=
  .ok ⟨true, [], [], some ⟨"wid", "srv", "c", "m", none, none, none⟩⟩
def oracleAllOk : MCPOracle := ⟨okKVResp, okWorkerResp, fun _ => okUnitResp, "T"⟩
def oracleKvFail : MCPOracle := ⟨.error "kv boom", okWorkerResp, fun _ => okUnitResp, "T"⟩
def oracleDeployFail : MCPOracle := ⟨okKVResp, .error "deploy down", fun _ => okUnitResp, "T"⟩
def mcpArgsW : MCPArgs := ⟨"srv", "code", "gid", "gsec", none, none, none⟩
def get404W : GetWorkerEnv := ⟨.ok (404, .error "no body"), .ok (), "T"⟩
def getThrowW : GetWorkerEnv := ⟨.error "net down", .ok (), "T"⟩
def delOracle404W : DeleteOracle := ⟨get404W, okUnitResp, "T"⟩
def secretsABW : List Secret := [⟨"A", "1"⟩, ⟨"B", "2"⟩]
def secretOrOkW : String → ROut Unit := fun _ => okUnitResp
def secretOrFailW : String → ROut Unit := fun _ => failUnitResp

/-! # Theorems

First the generic lemmas on the string predicates and the pattern engine,
then one theorem (with counterexample / witness companions) per claim. -/

theorem strStartsWith_append {s p : String} (t : String) (h : StrStartsWith s p) :
    StrStartsWith (s ++ t) p := by
  unfold StrStartsWith at *
  rw [String.data_append]
  exact h.trans (List.prefix_append s.data t.data)

theorem not_strStartsWith_append {s p : String} (t : String)
    (hlen : p.data.length ≤ s.data.length) (h : ¬ StrStartsWith s p) :
    ¬ StrStartsWith (s ++ t) p := by
  unfold StrStartsWith at *
  rw [String.data_append]
  intro hpre
  apply h
  rw [List.prefix_iff_eq_take] at hpre ⊢
  rwa [List.take_append_of_le_length hlen] at hpre

theorem strContains_append {s p : String} (t : String) (h : StrContains s p) :
    StrContains (s ++ t) p := by
  unfold StrContains at *
  rw [String.data_append]
  exact h.trans (List.prefix_append s.data t.data).isInfix

theorem searchAux_drop {needB : Bool} {ps : List Pat} :
    ∀ (prev : Option Char) (s : List Char), searchAux needB ps prev s = true →
      ∃ i, matchHere ps (s.drop i) = true
  | prev, s, h => by
    rw [searchAux.eq_def] at h
    rcases Bool.or_eq_true_iff.mp h with h1 | h2
    · exact ⟨0, (Bool.and_eq_true_iff.mp h1).2⟩
    · match s, h2 with
      | c :: rest, h2 =>
        obtain ⟨i, hi⟩ := searchAux_drop (some c) rest h2
        exact ⟨i + 1, by simpa using hi⟩

theorem matchHere_lit_mem {cs : List Pat} {l s : List Char}
    (h : matchHere (.lit l :: cs) s = true) : ∀ c ∈ l, c ∈ s := by
  rw [matchHere] at h
  have hpre := (Bool.and_eq_true_iff.mp h).1
  rw [List.isPrefixOf_iff_prefix] at hpre
  exact fun c hc => hpre.subset hc

theorem mem_of_regexTest_lit {needB : Bool} {l : List Char} {cs : List Pat}
    {s : List Char} (h : regexTest needB (.lit l :: cs) s = true) :
    ∀ c ∈ l, c ∈ s := by
  obtain ⟨i, hi⟩ := searchAux_drop none s h
  exact fun c hc => List.drop_subset i s (matchHere_lit_mem hi c hc)

theorem trimChars_ne_nil_of_mem {s : List Char} {c : Char} (hc : c ∈ s)
    (hw : isWSChar c = false) : trimChars s ≠ [] := by
  unfold trimChars
  intro hnil
  rw [List.reverse_eq_nil_iff, List.dropWhile_eq_nil_iff] at hnil
  have h1 : c ∈ s.dropWhile isWSChar := by
    have := (List.takeWhile_append_dropWhile isWSChar s) ▸ hc
    rcases List.mem_append.mp this with h | h
    · exact absurd (List.mem_takeWhile_imp h) (by simp [hw])
    · exact h
  exact absurd (hnil c (List.mem_reverse.mpr h1)) (by simp [hw])

/-- If the template-literal pattern matches, the code contains a `$`,
hence does not trim to the empty string. -/
theorem trimChars_ne_nil_of_template {code : String}
    (h : hasTemplateLiteral code = true) : trimChars code.data ≠ [] := by
  have hmem : '$' ∈ code.data :=
    mem_of_regexTest_lit h '$' (by simp [templatePattern])
  exact trimChars_ne_nil_of_mem hmem (by decide)

theorem validateWorkerCode_of_template {code : String}
    (h : hasTemplateLiteral code = true) :
    validateWorkerCode code = ⟨false, some msgDangerous⟩ := by
  unfold validateWorkerCode
  rw [if_neg (trimChars_ne_nil_of_template h), if_pos]
  unfold dangerousPatternHit
  simp [h]

/-! ## Error-prefix lemmas, one per outcome type -/

theorem deployWorker_err_iff (o : DeployWorkerOutcome) :
    o.isErr = true ↔ StrStartsWith (renderDeployWorker o) "**Error**" := by
  cases o with
  | validationError msg => exact iff_of_true rfl (strStartsWith_append _ (by decide))
  | credsError => exact iff_of_true rfl (by decide)
  | deployThrew msg => exact iff_of_true rfl (strStartsWith_append _ (by decide))
  | deployFailed msg => exact iff_of_true rfl (strStartsWith_append _ (by decide))
  | deployed name json =>
    exact iff_of_false (by simp [DeployWorkerOutcome.isErr])
      (not_strStartsWith_append _ (by decide) (by decide))

theorem deleteWorker_err_iff (o : DeleteWorkerOutcome) :
    o.isErr = true ↔ StrStartsWith (renderDeleteWorker o) "**Error**" := by
  cases o with
  | confirmError name => exact iff_of_true rfl (strStartsWith_append _ (by decide))
  | credsError => exact iff_of_true rfl (by decide)
  | notFound name => exact iff_of_true rfl (strStartsWith_append _ (by decide))
  | deleteThrew msg => exact iff_of_true rfl (strStartsWith_append _ (by decide))
  | deleteFailed msg => exact iff_of_true rfl (strStartsWith_append _ (by decide))
  | nullWorkerError => exact iff_of_true rfl (strStartsWith_append _ (by decide))
  | deleted name json =>
    exact iff_of_false (by simp [DeleteWorkerOutcome.isErr])
      (not_strStartsWith_append _ (by decide) (by decide))

theorem listWorkers_err_iff (o : ListWorkersOutcome) :
    o.isErr = true ↔ StrStartsWith (renderListWorkers o) "**Error**" := by
  cases o with
  | credsError => exact iff_of_true rfl (by decide)
  | listThrew msg => exact iff_of_true rfl (strStartsWith_append _ (by decide))
  | listFailed msg => exact iff_of_true rfl (strStartsWith_append _ (by decide))
  | noWorkers => exact iff_of_false (by simp [ListWorkersOutcome.isErr]) (by decide)
  | workersList ws =>
    exact iff_of_false (by simp [ListWorkersOutcome.isErr])
      (not_strStartsWith_append _ (by decide) (by decide))

theorem createKV_err_iff (o : CreateKVOutcome) :
    o.isErr = true ↔ StrStartsWith (renderCreateKV o) "**Error**" := by
  cases o with
  | credsError => exact iff_of_true rfl (by decide)
  | kvThrew msg => exact iff_of_true rfl (strStartsWith_append _ (by decide))
  | kvFailed msg => exact iff_of_true rfl (strStartsWith_append _ (by decide))
  | nullResultError => exact iff_of_true rfl (strStartsWith_append _ (by decide))
  | created name json =>
    exact iff_of_false (by simp [CreateKVOutcome.isErr])
      (not_strStartsWith_append _ (by decide) (by decide))

theorem setSecrets_err_iff (o : SetSecretsOutcome) :
    o.isErr = true ↔ StrStartsWith (renderSetSecrets o) "**Error**" := by
  cases o with
  | credsError => exact iff_of_true rfl (by decide)
  | emptyListError => exact iff_of_true rfl (strStartsWith_append _ (by decide))
  | failureEnvelope r => exact iff_of_true rfl (strStartsWith_append _ (by decide))
  | batchEnvelope status r =>
    refine iff_of_false (by simp [SetSecretsOutcome.isErr]) ?_
    by_cases hs : status = "SUCCESS"
    · simp only [renderSetSecrets, if_pos hs]
      exact not_strStartsWith_append _ (by decide) (by decide)
    · simp only [renderSetSecrets, if_neg hs]
      exact not_strStartsWith_append _ (by decide) (by decide)

theorem deployMCP_err_iff (o : MCPDeployOutcome) :
    o.isErr = true ↔ StrStartsWith (renderDeployMCPServer o) "**Error**" := by
  cases o with
  | credsError => exact iff_of_true rfl (by decide)
  | deployFailed msg steps => exact iff_of_true rfl (strStartsWith_append _ (by decide))
  | deployed r =>
    exact iff_of_false (by simp [MCPDeployOutcome.isErr])
      (not_strStartsWith_append _ (by decide) (by decide))

theorem listTables_err_iff (o : ListTablesOutcome) :
    o.isErr = true ↔ StrStartsWith (renderListTables o) "**Error**" := by
  cases o with
  | configError missing => exact iff_of_true rfl (strStartsWith_append _ (by decide))
  | rpcError msg => exact iff_of_true rfl (strStartsWith_append _ (by decide))
  | badFormat => exact iff_of_true rfl (by decide)
  | tables l =>
    exact iff_of_false (by simp [ListTablesOutcome.isErr])
      (not_strStartsWith_append _ (by decide) (by decide))

theorem queryDb_err_iff (o : QueryDbOutcome) :
    o.isErr = true ↔ StrStartsWith (renderQueryDb o) "**Error**" := by
  cases o with
  | invalidSql msg => exact iff_of_true rfl (strStartsWith_append _ (by decide))
  | writeRejected => exact iff_of_true rfl (by decide)
  | configError missing => exact iff_of_true rfl (strStartsWith_append _ (by decide))
  | rpcError msg => exact iff_of_true rfl (strStartsWith_append _ (by decide))
  | queryResults sql data =>
    exact iff_of_false (by simp [QueryDbOutcome.isErr])
      (not_strStartsWith_append _ (by decide) (by decide))

theorem executeDb_err_iff (o : ExecuteDbOutcome) :
    o.isErr = true ↔ StrStartsWith (renderExecuteDb o) "**Error**" := by
  cases o with
  | invalidSql msg => exact iff_of_true rfl (strStartsWith_append _ (by decide))
  | configError missing => exact iff_of_true rfl (strStartsWith_append _ (by decide))
  | rpcError msg => exact iff_of_true rfl (strStartsWith_append _ (by decide))
  | executed isWrite sql data login userName =>
    refine iff_of_false (by simp [ExecuteDbOutcome.isErr]) ?_
    by_cases hw : isWrite = true
    · simp only [renderExecuteDb, if_pos hw]
      exact not_strStartsWith_append _ (by decide) (by decide)
    · simp only [renderExecuteDb, if_neg hw]
      exact not_strStartsWith_append _ (by decide) (by decide)

theorem manageDO_err_iff (o : ManageDOOutcome) :
    o.isErr = true ↔ StrStartsWith (renderManageDO o) "**Error**" := by
  cases o with
  | credsError => exact iff_of_true rfl (by decide)
  | configured cn wn json =>
    exact iff_of_false (by simp [ManageDOOutcome.isErr])
      (not_strStartsWith_append _ (by decide) (by decide))

theorem getStatus_err_iff (o : GetStatusOutcome) :
    o.isErr = true ↔ StrStartsWith (renderGetStatus o) "**Error**" := by
  cases o with
  | credsError => exact iff_of_true rfl (by decide)
  | workerNotFound name => exact iff_of_true rfl (strStartsWith_append _ (by decide))
  | statusFailed msg => exact iff_of_true rfl (strStartsWith_append _ (by decide))
  | nullWorkerError => exact iff_of_true rfl (strStartsWith_append _ (by decide))
  | statusOk name json u d =>
    exact iff_of_false (by simp [GetStatusOutcome.isErr])
      (not_strStartsWith_append _ (by decide) (by decide))

/-- C8.  Every tool handler is a total function into a content envelope
(in this embedding each `run…` returns a response for every input and
every remote-call outcome, including thrown client calls, modelled by the
`.error` oracles), and an outcome is an error outcome exactly when its
rendered text is prefixed `**Error**`. -/
theorem handlers_error_envelope_iff_error_prefix :
    (∀ env props o a, ((runDeployWorker env props o a).1.isErr = true ↔
        StrStartsWith (renderDeployWorker (runDeployWorker env props o a).1) "**Error**"))
    ∧ (∀ env props o name confirm,
        ((runDeleteWorker env props o name confirm).1.isErr = true ↔
          StrStartsWith (renderDeleteWorker (runDeleteWorker env props o name confirm).1) "**Error**"))
    ∧ (∀ env o, ((runListWorkers env o).1.isErr = true ↔
        StrStartsWith (renderListWorkers (runListWorkers env o).1) "**Error**"))
    ∧ (∀ env o a, ((runCreateKVNamespace env o a).1.isErr = true ↔
        StrStartsWith (renderCreateKV (runCreateKVNamespace env o a).1) "**Error**"))
    ∧ (∀ env so w secrets e, ((runSetWorkerSecrets env so w secrets e).1.isErr = true ↔
        StrStartsWith (renderSetSecrets (runSetWorkerSecrets env so w secrets e).1) "**Error**"))
    ∧ (∀ env props o a, ((runDeployMCPServer env props o a).1.isErr = true ↔
        StrStartsWith (renderDeployMCPServer (runDeployMCPServer env props o a).1) "**Error**"))
    ∧ (∀ env rpc, ((runListTables env rpc).isErr = true ↔
        StrStartsWith (renderListTables (runListTables env rpc)) "**Error**"))
    ∧ (∀ env v iw rpc sql, ((runQueryDatabase env v iw rpc sql).isErr = true ↔
        StrStartsWith (renderQueryDb (runQueryDatabase env v iw rpc sql)) "**Error**"))
    ∧ (∀ env props v iw rpc sql, ((runExecuteDatabase env props v iw rpc sql).isErr = true ↔
        StrStartsWith (renderExecuteDb (runExecuteDatabase env props v iw rpc sql)) "**Error**"))
    ∧ (∀ env a nowMs, ((runManageDurableObjects env a nowMs).1.isErr = true ↔
        StrStartsWith (renderManageDO (runManageDurableObjects env a nowMs).1) "**Error**"))
    ∧ (∀ env o name, ((runGetWorkerStatus env o name).1.isErr = true ↔
        StrStartsWith (renderGetStatus (runGetWorkerStatus env o name).1) "**Error**"))
    ∧ (∀ props, ¬ StrStartsWith (whoamiText props) "**Error**") :=
  ⟨fun _ _ _ _ => deployWorker_err_iff _,
   fun _ _ _ _ _ => deleteWorker_err_iff _,
   fun _ _ => listWorkers_err_iff _,
   fun _ _ _ => createKV_err_iff _,
   fun _ _ _ _ _ => setSecrets_err_iff _,
   fun _ _ _ _ => deployMCP_err_iff _,
   fun _ _ => listTables_err_iff _,
   fun _ _ _ _ _ => queryDb_err_iff _,
   fun _ _ _ _ _ _ => executeDb_err_iff _,
   fun _ _ _ => manageDO_err_iff _,
   fun _ _ _ => getStatus_err_iff _,
   fun _ => not_strStartsWith_append _ (by decide) (by decide)⟩

/-! ## C1 — overall status of the orchestrator -/

/-- C1 counterexample: with credentials present, a failing namespace
creation and a successful code deployment, the orchestrator still answers
with the success envelope whose overall `status` field is the literal
`'deployed'` — not `PARTIAL` as the claim requires. -/
theorem deployMCPServer_namespaceFail_not_partial :
    mcpKvStepStatus (runDeployMCPServer envOkW propsW oracleKvFail mcpArgsW).1 = some "failed"
    ∧ deployPhaseFails oracleKvFail = false
    ∧ mcpOverallStatus (runDeployMCPServer envOkW propsW oracleKvFail mcpArgsW).1 = some "deployed"
    ∧ mcpOverallStatus (runDeployMCPServer envOkW propsW oracleKvFail mcpArgsW).1 ≠ some "PARTIAL"
    ∧ StrStartsWith
        (renderDeployMCPServer (runDeployMCPServer envOkW propsW oracleKvFail mcpArgsW).1)
        "**Success**" := by
  refine ⟨?_, ?_, ?_, ?_, ?_⟩ <;> decide

/-- C1 (amended): the orchestrator's outcome is the `FAILURE` error
envelope iff the CodeDeploy phase fails; whenever CodeDeploy succeeds the
outcome is the success envelope with overall status `'deployed'`,
regardless of the other phases — no overall `PARTIAL` status exists
(per-phase failures are reported only inside `deploymentSteps`). -/
theorem deployMCPServer_overall_status (env : Env) (props : Props) (o : MCPOracle)
    (a : MCPArgs) (h : credsMissing env = false) :
    ((∃ m steps, (runDeployMCPServer env props o a).1 = .deployFailed m steps) ↔
      deployPhaseFails o = true)
    ∧ (deployPhaseFails o = false →
      ∃ res, (runDeployMCPServer env props o a).1 = .deployed res ∧ res.status = "deployed") := by
  cases hd : o.deploy with
  | error m =>
    have hfail : deployPhaseFails o = true := by simp [deployPhaseFails, hd]
    have hrun : (runDeployMCPServer env props o a).1 =
        .deployFailed m (stepsAfterKV (kvStepResult o.kv)) := by
      simp [runDeployMCPServer, h, hd, createKVNamespaceApi, deployWorkerApi]
    exact ⟨iff_of_true ⟨m, _, hrun⟩ hfail, fun hf => absurd hfail (by simp [hf])⟩
  | ok r =>
    cases hs : r.success with
    | false =>
      have hfail : deployPhaseFails o = true := by simp [deployPhaseFails, hd, hs]
      have hrun : (runDeployMCPServer env props o a).1 =
          .deployFailed (firstErrOr r "Worker deployment failed")
            (stepsAfterKV (kvStepResult o.kv)) := by
        simp [runDeployMCPServer, h, hd, hs, createKVNamespaceApi, deployWorkerApi]
      exact ⟨iff_of_true ⟨_, _, hrun⟩ hfail, fun hf => absurd hfail (by simp [hf])⟩
    | true =>
      have hok : deployPhaseFails o = false := by simp [deployPhaseFails, hd, hs]
      have hrun : (runDeployMCPServer env props o a).1 =
          .deployed (mcpSuccessResult env props o a r) := by
        simp [runDeployMCPServer, h, hd, hs, createKVNamespaceApi, deployWorkerApi]
      refine ⟨iff_of_false ?_ (by simp [hok]), fun _ => ⟨_, hrun, rfl⟩⟩
      rintro ⟨m, steps, hm⟩
      rw [hrun] at hm
      exact MCPDeployOutcome.noConfusion hm

theorem deployMCPServer_overall_status_witness :
    ((∃ m steps, (runDeployMCPServer envOkW propsW oracleDeployFail mcpArgsW).1 =
        MCPDeployOutcome.deployFailed m steps) ↔ deployPhaseFails oracleDeployFail = true)
    ∧ (deployPhaseFails oracleDeployFail = false →
      ∃ res, (runDeployMCPServer envOkW propsW oracleDeployFail mcpArgsW).1 =
        MCPDeployOutcome.deployed res ∧ res.status = "deployed") :=
  deployMCPServer_overall_status envOkW propsW oracleDeployFail mcpArgsW (by decide)

/-! ## C2 — CodeDeploy failure aborts the plan -/

/-- C2: when the CodeDeploy phase fails (throw or `success:false`), the
orchestrator returns immediately: the failure outcome carries only the
step results so far (Namespace recorded; StatefulBinding, CodeDeploy and
Secrets still `pending`), only the namespace and deploy calls were
issued, and no secret `PUT` is ever sent. -/
theorem deployMCPServer_fatal_codeDeploy_aborts (env : Env) (props : Props)
    (o : MCPOracle) (a : MCPArgs) (h1 : credsMissing env = false)
    (h2 : deployPhaseFails o = true) :
    (∃ m, (runDeployMCPServer env props o a).1 =
        .deployFailed m (stepsAfterKV (kvStepResult o.kv)))
    ∧ (runDeployMCPServer env props o a).2 =
        [RCall.kvCreate (a.name ++ "-oauth-kv"), RCall.workerPut a.name]
    ∧ (stepsAfterKV (kvStepResult o.kv)).durableObjects.status = "pending"
    ∧ (stepsAfterKV (kvStepResult o.kv)).workerDeployment.status = "pending"
    ∧ (stepsAfterKV (kvStepResult o.kv)).secrets.status = "pending"
    ∧ ∀ w s, RCall.secretPut w s ∉ (runDeployMCPServer env props o a).2 := by
  have hcalls : (runDeployMCPServer env props o a).2 =
      [RCall.kvCreate (a.name ++ "-oauth-kv"), RCall.workerPut a.name] := by
    cases hd : o.deploy with
    | error m =>
      simp [runDeployMCPServer, h1, hd, createKVNamespaceApi, deployWorkerApi]
    | ok r =>
      cases hs : r.success with
      | false => simp [runDeployMCPServer, h1, hd, hs, createKVNamespaceApi, deployWorkerApi]
      | true => simp [deployPhaseFails, hd, hs] at h2
  refine ⟨?_, hcalls, rfl, rfl, rfl, ?_⟩
  · cases hd : o.deploy with
    | error m =>
      exact ⟨m, by simp [runDeployMCPServer, h1, hd, createKVNamespaceApi, deployWorkerApi]⟩
    | ok r =>
      cases hs : r.success with
      | false =>
        exact ⟨firstErrOr r "Worker deployment failed",
          by simp [runDeployMCPServer, h1, hd, hs, createKVNamespaceApi, deployWorkerApi]⟩
      | true => simp [deployPhaseFails, hd, hs] at h2
  · intro w s
    rw [hcalls]
    simp

theorem deployMCPServer_fatal_codeDeploy_aborts_witness :
    (∃ m, (runDeployMCPServer envOkW propsW oracleDeployFail mcpArgsW).1 =
        MCPDeployOutcome.deployFailed m (stepsAfterKV (kvStepResult oracleDeployFail.kv)))
    ∧ (runDeployMCPServer envOkW propsW oracleDeployFail mcpArgsW).2 =
        [RCall.kvCreate (mcpArgsW.name ++ "-oauth-kv"), RCall.workerPut mcpArgsW.name]
    ∧ (stepsAfterKV (kvStepResult oracleDeployFail.kv)).durableObjects.status = "pending"
    ∧ (stepsAfterKV (kvStepResult oracleDeployFail.kv)).workerDeployment.status = "pending"
    ∧ (stepsAfterKV (kvStepResult oracleDeployFail.kv)).secrets.status = "pending"
    ∧ ∀ w s, RCall.secretPut w s ∉ (runDeployMCPServer envOkW propsW oracleDeployFail mcpArgsW).2 :=
  deployMCPServer_fatal_codeDeploy_aborts envOkW propsW oracleDeployFail mcpArgsW
    (by decide) (by decide)

/-! ## C3, C4, C5 — the secret batch processor -/

/-- With credentials present and a non-empty list, exactly one secret
`PUT` (for the head of the list) is issued, whatever the outcome. -/
theorem runSetWorkerSecrets_calls (env : Env) (so : String → ROut Unit) (w : String)
    (first : Secret) (rest : List Secret) (e : Option String)
    (h : credsMissing env = false) :
    (runSetWorkerSecrets env so w (first :: rest) e).2 = [RCall.secretPut w first.name] := by
  rcases hso : so first.name with m | resp
  · simp [runSetWorkerSecrets, h, hso, setWorkerSecretApi, settleFirstSecret]
  · cases hrs : resp.success with
    | true => simp [runSetWorkerSecrets, h, hso, hrs, setWorkerSecretApi, settleFirstSecret]
    | false => simp [runSetWorkerSecrets, h, hso, hrs, setWorkerSecretApi, settleFirstSecret]

/-- C3: one invocation with a non-empty list of N secrets issues exactly
one remote secret-set call — for the first secret — and reports the other
N-1 as `pending`, each with the note instructing the caller to re-invoke. -/
theorem setWorkerSecrets_processes_only_first (env : Env) (so : String → ROut Unit)
    (w : String) (first : Secret) (rest : List Secret) (e : Option String)
    (h : credsMissing env = false) :
    (runSetWorkerSecrets env so w (first :: rest) e).2 = [RCall.secretPut w first.name]
    ∧ Option.map (fun r => r.totalSecrets)
        (batchResultOf (runSetWorkerSecrets env so w (first :: rest) e).1) =
      some (first :: rest).length
    ∧ Option.map (fun r => r.pendingSecrets)
        (batchResultOf (runSetWorkerSecrets env so w (first :: rest) e).1) =
      some (rest.map (·.name))
    ∧ Option.map (fun r => r.results.tail)
        (batchResultOf (runSetWorkerSecrets env so w (first :: rest) e).1) =
      some (rest.map fun s => SettleResult.pending s.name pendingNote) := by
  refine ⟨runSetWorkerSecrets_calls env so w first rest e h, ?_, ?_, ?_⟩ <;>
  · rcases hso : so first.name with m | resp
    · simp [runSetWorkerSecrets, h, hso, setWorkerSecretApi, settleFirstSecret, batchResultOf]
    · cases hrs : resp.success with
      | true =>
        simp [runSetWorkerSecrets, h, hso, hrs, setWorkerSecretApi, settleFirstSecret,
          batchResultOf]
      | false =>
        simp [runSetWorkerSecrets, h, hso, hrs, setWorkerSecretApi, settleFirstSecret,
          batchResultOf]

theorem setWorkerSecrets_processes_only_first_witness :
    (runSetWorkerSecrets envOkW secretOrOkW "w" secretsABW none).2 =
      [RCall.secretPut "w" (⟨"A", "1"⟩ : Secret).name]
    ∧ Option.map (fun r => r.totalSecrets)
        (batchResultOf (runSetWorkerSecrets envOkW secretOrOkW "w" secretsABW none).1) =
      some secretsABW.length
    ∧ Option.map (fun r => r.pendingSecrets)
        (batchResultOf (runSetWorkerSecrets envOkW secretOrOkW "w" secretsABW none).1) =
      some ([⟨"B", "2"⟩].map fun s : Secret => s.name)
    ∧ Option.map (fun r => r.results.tail)
        (batchResultOf (runSetWorkerSecrets envOkW secretOrOkW "w" secretsABW none).1) =
      some ([⟨"B", "2"⟩].map fun s : Secret => SettleResult.pending s.name pendingNote) :=
  setWorkerSecrets_processes_only_first envOkW secretOrOkW "w" ⟨"A", "1"⟩ [⟨"B", "2"⟩] none
    (by decide)

/-- C4 counterexample: the tool keeps no state between invocations (the
handler is a pure function of its arguments and the network), so a second
invocation with the same, unchanged two-secret list is the same
application — it again posts only the FIRST secret `A` and still reports
`B` as pending, instead of processing the next secret. -/
theorem setWorkerSecrets_second_call_reprocesses_first :
    (runSetWorkerSecrets envOkW secretOrOkW "w" secretsABW none).2 = [RCall.secretPut "w" "A"]
    ∧ RCall.secretPut "w" "B" ∉ (runSetWorkerSecrets envOkW secretOrOkW "w" secretsABW none).2
    ∧ Option.map (fun r => r.pendingSecrets)
        (batchResultOf (runSetWorkerSecrets envOkW secretOrOkW "w" secretsABW none).1) =
      some ["B"] := by
  refine ⟨?_, ?_, ?_⟩ <;> decide

/-- C4 (amended): the batch processor is stateless; every invocation with
the unchanged list processes its first secret again.  The next secret is
processed only when the caller re-invokes with the already-processed head
removed from the list. -/
theorem setWorkerSecrets_stateless_progress (env : Env) (so : String → ROut Unit)
    (w : String) (s0 s1 : Secret) (rest : List Secret) (e : Option String)
    (h : credsMissing env = false) :
    (runSetWorkerSecrets env so w (s0 :: s1 :: rest) e).2 = [RCall.secretPut w s0.name]
    ∧ (runSetWorkerSecrets env so w (s1 :: rest) e).2 = [RCall.secretPut w s1.name] :=
  ⟨runSetWorkerSecrets_calls env so w s0 (s1 :: rest) e h,
   runSetWorkerSecrets_calls env so w s1 rest e h⟩

theorem setWorkerSecrets_stateless_progress_witness :
    (runSetWorkerSecrets envOkW secretOrOkW "w" secretsABW none).2 =
      [RCall.secretPut "w" (⟨"A", "1"⟩ : Secret).name]
    ∧ (runSetWorkerSecrets envOkW secretOrOkW "w" [⟨"B", "2"⟩] none).2 =
      [RCall.secretPut "w" (⟨"B", "2"⟩ : Secret).name] :=
  setWorkerSecrets_stateless_progress envOkW secretOrOkW "w" ⟨"A", "1"⟩ ⟨"B", "2"⟩ [] none
    (by decide)

/-- C5 counterexample: first secret of a two-secret list fails.  The
response is the `**Error**` envelope, but the `status` field of the
reported result object is `PARTIAL` (because secrets remain pending), not
`FAILURE` as the claim requires. -/
theorem setWorkerSecrets_firstFail_status_partial :
    Option.map (fun r => r.statusField)
        (batchResultOf (runSetWorkerSecrets envOkW secretOrFailW "w" secretsABW none).1) =
      some "PARTIAL"
    ∧ Option.map (fun r => r.statusField)
        (batchResultOf (runSetWorkerSecrets envOkW secretOrFailW "w" secretsABW none).1) ≠
      some "FAILURE"
    ∧ Option.map (fun r => r.failedSecrets)
        (batchResultOf (runSetWorkerSecrets envOkW secretOrFailW "w" secretsABW none).1) =
      some [("A", "boom")]
    ∧ (runSetWorkerSecrets envOkW secretOrFailW "w" secretsABW none).1.isErr = true := by
  refine ⟨?_, ?_, ?_, ?_⟩ <;> decide

/-- C5 (amended): the reported `status` field is `SUCCESS` when the one
processed secret succeeded and none remain, `FAILURE` when it failed and
none remain, and `PARTIAL` whenever secrets remain pending — regardless of
the processed secret's outcome.  Independently, the `**Error**` response
envelope is chosen exactly when the processed secret failed. -/
theorem setWorkerSecrets_status_characterization (env : Env) (so : String → ROut Unit)
    (w : String) (first : Secret) (rest : List Secret) (e : Option String)
    (h : credsMissing env = false) :
    Option.map (fun r => r.statusField)
        (batchResultOf (runSetWorkerSecrets env so w (first :: rest) e).1) =
      some (if rest.isEmpty then
              if secretOutcomeOk (so first.name) then "SUCCESS" else "FAILURE"
            else "PARTIAL")
    ∧ ((runSetWorkerSecrets env so w (first :: rest) e).1.isErr = true ↔
        secretOutcomeOk (so first.name) = false) := by
  constructor <;>
  · rcases hso : so first.name with m | resp
    · cases rest with
      | nil =>
        simp [runSetWorkerSecrets, h, hso, setWorkerSecretApi, settleFirstSecret,
          batchResultOf, secretOutcomeOk, SetSecretsOutcome.isErr]
      | cons s t =>
        simp [runSetWorkerSecrets, h, hso, setWorkerSecretApi, settleFirstSecret,
          batchResultOf, secretOutcomeOk, SetSecretsOutcome.isErr]
    · cases hrs : resp.success with
      | true =>
        cases rest with
        | nil =>
          simp [runSetWorkerSecrets, h, hso, hrs, setWorkerSecretApi, settleFirstSecret,
            batchResultOf, secretOutcomeOk, SetSecretsOutcome.isErr]
        | cons s t =>
          simp [runSetWorkerSecrets, h, hso, hrs, setWorkerSecretApi, settleFirstSecret,
            batchResultOf, secretOutcomeOk, SetSecretsOutcome.isErr]
      | false =>
        cases rest with
        | nil =>
          simp [runSetWorkerSecrets, h, hso, hrs, setWorkerSecretApi, settleFirstSecret,
            batchResultOf, secretOutcomeOk, SetSecretsOutcome.isErr]
        | cons s t =>
          simp [runSetWorkerSecrets, h, hso, hrs, setWorkerSecretApi, settleFirstSecret,
            batchResultOf, secretOutcomeOk, SetSecretsOutcome.isErr]

theorem setWorkerSecrets_status_characterization_witness :
    Option.map (fun r => r.statusField)
        (batchResultOf (runSetWorkerSecrets envOkW secretOrFailW "w" secretsABW none).1) =
      some (if ([⟨"B", "2"⟩] : List Secret).isEmpty then
              if secretOutcomeOk (secretOrFailW "A") then "SUCCESS" else "FAILURE"
            else "PARTIAL")
    ∧ ((runSetWorkerSecrets envOkW secretOrFailW "w" secretsABW none).1.isErr = true ↔
        secretOutcomeOk (secretOrFailW "A") = false) :=
  setWorkerSecrets_status_characterization envOkW secretOrFailW "w" ⟨"A", "1"⟩ [⟨"B", "2"⟩]
    none (by decide)

/-! ## C6 — missing credentials short-circuit -/

set_option maxRecDepth 8192 in
/-- C6 counterexample: deleteWorker invoked with `confirm:false` in an
environment without credentials returns the confirmation error — an error
response whose text does NOT contain "Cloudflare credentials not
configured" — refuting the claim for this invocation (no remote call is
made, though). -/
theorem deleteWorker_unconfirmed_creds_counterexample :
    credsMissing envNoneW = true
    ∧ (runDeleteWorker envNoneW propsW delOracle404W "w" false).1 =
        DeleteWorkerOutcome.confirmError "w"
    ∧ (runDeleteWorker envNoneW propsW delOracle404W "w" false).2 = []
    ∧ (runDeleteWorker envNoneW propsW delOracle404W "w" false).1.isErr = true
    ∧ ¬ StrContains
        (renderDeleteWorker (runDeleteWorker envNoneW propsW delOracle404W "w" false).1)
        "Cloudflare credentials not configured" := by
  refine ⟨?_, ?_, ?_, ?_, ?_⟩ <;> decide

set_option maxRecDepth 8192 in
/-- C6 (amended): for every deployment / infrastructure tool invoked with
the account id or API token absent, provided the request passes the
handler's earlier input checks (code validation for deployWorker, the
confirmation flag for deleteWorker), the response is the credentials
error — whose text contains "Cloudflare credentials not configured" — and
no remote call is issued; moreover no remote call is issued even when
those earlier checks reject first. -/
theorem missing_credentials_short_circuit :
    (∀ env props o a, credsMissing env = true → (validateWorkerCode a.code).isValid = true →
      runDeployWorker env props o a = (.credsError, [])
      ∧ StrContains (renderDeployWorker .credsError) "Cloudflare credentials not configured")
    ∧ (∀ env props o a, credsMissing env = true →
      runDeployMCPServer env props o a = (.credsError, [])
      ∧ StrContains (renderDeployMCPServer .credsError) "Cloudflare credentials not configured")
    ∧ (∀ env so w secrets e, credsMissing env = true →
      runSetWorkerSecrets env so w secrets e = (.credsError, [])
      ∧ StrContains (renderSetSecrets .credsError) "Cloudflare credentials not configured")
    ∧ (∀ env o a, credsMissing env = true →
      runCreateKVNamespace env o a = (.credsError, [])
      ∧ StrContains (renderCreateKV .credsError) "Cloudflare credentials not configured")
    ∧ (∀ env props o name, credsMissing env = true →
      runDeleteWorker env props o name true = (.credsError, [])
      ∧ (runDeleteWorker env props o name false).2 = []
      ∧ StrContains (renderDeleteWorker .credsError) "Cloudflare credentials not configured")
    ∧ (∀ env o, credsMissing env = true →
      runListWorkers env o = (.credsError, [])
      ∧ StrContains (renderListWorkers .credsError) "Cloudflare credentials not configured")
    ∧ (∀ env o name, credsMissing env = true →
      runGetWorkerStatus env o name = (.credsError, [])
      ∧ StrContains (renderGetStatus .credsError) "Cloudflare credentials not configured")
    ∧ (∀ env props o a, credsMissing env = true → (runDeployWorker env props o a).2 = []) := by
  refine ⟨?_, ?_, ?_, ?_, ?_, ?_, ?_, ?_⟩
  · intro env props o a h hv
    exact ⟨by simp [runDeployWorker, hv, h], by decide⟩
  · intro env props o a h
    exact ⟨by simp [runDeployMCPServer, h], by decide⟩
  · intro env so w secrets e h
    exact ⟨by simp [runSetWorkerSecrets, h], by decide⟩
  · intro env o a h
    exact ⟨by simp [runCreateKVNamespace, h], by decide⟩
  · intro env props o name h
    exact ⟨by simp [runDeleteWorker, h], by simp [runDeleteWorker], by decide⟩
  · intro env o h
    exact ⟨by simp [runListWorkers, h], by decide⟩
  · intro env o name h
    exact ⟨by simp [runGetWorkerStatus, h], by decide⟩
  · intro env props o a h
    cases hv : (validateWorkerCode a.code).isValid <;> simp [runDeployWorker, hv, h]

theorem missing_credentials_short_circuit_witness :
    runDeployWorker envNoneW propsW okWorkerResp ⟨"w", "x = 1", none⟩ = (.credsError, [])
    ∧ runDeployMCPServer envNoneW propsW oracleAllOk mcpArgsW = (.credsError, [])
    ∧ runSetWorkerSecrets envNoneW secretOrOkW "w" secretsABW none = (.credsError, [])
    ∧ runCreateKVNamespace envNoneW okKVResp ⟨"KV", "t", none⟩ = (.credsError, [])
    ∧ runDeleteWorker envNoneW propsW delOracle404W "w" true = (.credsError, [])
    ∧ runListWorkers envNoneW (.ok ⟨true, [], [], some []⟩) = (.credsError, [])
    ∧ runGetWorkerStatus envNoneW ⟨get404W, 0, fun _ => 0⟩ "w" = (.credsError, []) :=
  ⟨(missing_credentials_short_circuit.1 _ _ _ _ (by decide) (by decide)).1,
   (missing_credentials_short_circuit.2.1 _ _ _ _ (by decide)).1,
   (missing_credentials_short_circuit.2.2.1 _ _ _ _ _ (by decide)).1,
   (missing_credentials_short_circuit.2.2.2.1 _ _ _ (by decide)).1,
   (missing_credentials_short_circuit.2.2.2.2.1 _ _ _ _ (by decide)).1,
   (missing_credentials_short_circuit.2.2.2.2.2.1 _ _ (by decide)).1,
   (missing_credentials_short_circuit.2.2.2.2.2.2.1 _ ⟨get404W, 0, fun _ => 0⟩ _ (by decide)).1⟩

/-! ## C7 — get-worker 404 fallback; one HTTP call per other method -/

/-- C7: on a 404 from the primary `/settings` endpoint, `getWorker` also
probes the domains endpoint and returns a synthesized `success:true`
envelope carrying best-effort worker metadata instead of a failure; every
other client method issues exactly one outbound HTTP call per
invocation. -/
theorem getWorker_404_fallback_single_call :
    (∀ name o, primaryStatusIs404 o = true →
      (getWorkerApi name o).1.success = true
      ∧ (getWorkerApi name o).1.result.isSome = true
      ∧ (getWorkerApi name o).2 = [RCall.settingsGet name, RCall.domainsGet])
    ∧ (∀ o, (listWorkersApi o).2.length = 1)
    ∧ (∀ name o, (deployWorkerApi name o).2.length = 1)
    ∧ (∀ name o, (deleteWorkerApi name o).2.length = 1)
    ∧ (∀ name o, (getWorkerLogsApi name o).2.length = 1)
    ∧ (∀ w s o, (setWorkerSecretApi w s o).2.length = 1)
    ∧ (∀ t o, (createKVNamespaceApi t o).2.length = 1) := by
  refine ⟨?_, fun _ => rfl, fun _ _ => rfl, fun _ _ => rfl, fun _ _ => rfl,
    fun _ _ _ => rfl, fun _ _ => rfl⟩
  intro name o h
  rcases hp : o.primary with m | ⟨s, body⟩
  · simp [primaryStatusIs404, hp] at h
  · have hs : (s == 404) = true := by simpa [primaryStatusIs404, hp] using h
    rcases hdm : o.domains with m | u
    · refine ⟨?_, ?_, ?_⟩ <;> simp [getWorkerApi, hp, hs, hdm, limitedInfoResponse]
    · refine ⟨?_, ?_, ?_⟩ <;> simp [getWorkerApi, hp, hs, hdm, synthetic404Response]

theorem getWorker_404_fallback_single_call_witness :
    (getWorkerApi "w" get404W).1.success = true
    ∧ (getWorkerApi "w" get404W).1.result.isSome = true
    ∧ (getWorkerApi "w" get404W).2 = [RCall.settingsGet "w", RCall.domainsGet] :=
  getWorker_404_fallback_single_call.1 "w" get404W (by decide)

/-! ## C9 — deleteWorker's not-found branch is unreachable on 404/throw -/

/-- C9: when the primary settings lookup returns 404 or throws, the
client's get operation synthesizes `success:true`, so deleteWorker's
"Worker not found" branch cannot be taken and the delete call is issued
even though the worker's existence was never confirmed. -/
theorem deleteWorker_notFound_unreachable (env : Env) (props : Props) (o : DeleteOracle)
    (name : String) (h1 : credsMissing env = false)
    (h2 : primaryStatusIs404 o.get = true ∨ primaryThrew o.get = true) :
    (∀ n, (runDeleteWorker env props o name true).1 ≠ .notFound n)
    ∧ RCall.scriptDelete name ∈ (runDeleteWorker env props o name true).2 := by
  have hchk : (getWorkerApi name o.get).1.success = true := by
    rcases h2 with h2 | h2
    · rcases hp : o.get.primary with m | ⟨s, body⟩
      · simp [primaryStatusIs404, hp] at h2
      · have hs : (s == 404) = true := by simpa [primaryStatusIs404, hp] using h2
        rcases hdm : o.get.domains with m | u <;>
          simp [getWorkerApi, hp, hs, hdm, limitedInfoResponse, synthetic404Response]
    · rcases hp : o.get.primary with m | p
      · simp [getWorkerApi, hp, limitedInfoResponse]
      · simp [primaryThrew, hp] at h2
  rcases hg : getWorkerApi name o.get with ⟨chk, gcalls⟩
  rw [hg] at hchk
  have hchk' : chk.success = true := hchk
  constructor
  · intro n
    rcases hd : o.del with m | r
    · simp [runDeleteWorker, h1, hg, hchk', deleteWorkerApi, hd]
    · cases hrs : r.success with
      | false => simp [runDeleteWorker, h1, hg, hchk', deleteWorkerApi, hd, hrs]
      | true =>
        cases hcr : chk.result with
        | none => simp [runDeleteWorker, h1, hg, hchk', deleteWorkerApi, hd, hrs, hcr]
        | some wk => simp [runDeleteWorker, h1, hg, hchk', deleteWorkerApi, hd, hrs, hcr]
  · rcases hd : o.del with m | r
    · simp [runDeleteWorker, h1, hg, hchk', deleteWorkerApi, hd]
    · cases hrs : r.success with
      | false => simp [runDeleteWorker, h1, hg, hchk', deleteWorkerApi, hd, hrs]
      | true =>
        cases hcr : chk.result with
        | none => simp [runDeleteWorker, h1, hg, hchk', deleteWorkerApi, hd, hrs, hcr]
        | some wk => simp [runDeleteWorker, h1, hg, hchk', deleteWorkerApi, hd, hrs, hcr]

theorem deleteWorker_notFound_unreachable_witness :
    (∀ n, (runDeleteWorker envOkW propsW delOracle404W "w" true).1 ≠
      DeleteWorkerOutcome.notFound n)
    ∧ RCall.scriptDelete "w" ∈ (runDeleteWorker envOkW propsW delOracle404W "w" true).2 :=
  deleteWorker_notFound_unreachable envOkW propsW delOracle404W "w" (by decide)
    (Or.inl (by decide))

/-! ## C10 — template-literal interpolation is rejected -/

/-- C10: every code payload matching the template-literal pattern
`/\$\{.*\}/` is rejected by `validateWorkerCode` with the dangerous
patterns error, and deployWorker therefore answers with the validation
error before issuing any remote call. -/
theorem template_literal_code_rejected (code : String) (env : Env) (props : Props)
    (o : ROut CloudflareWorker) (name : String) (desc : Option String)
    (h : hasTemplateLiteral code = true) :
    validateWorkerCode code = ⟨false, some msgDangerous⟩
    ∧ runDeployWorker env props o ⟨name, code, desc⟩ = (.validationError msgDangerous, []) := by
  have hv := validateWorkerCode_of_template h
  refine ⟨hv, ?_⟩
  simp [runDeployWorker, hv, jsShow]

theorem template_literal_code_rejected_witness :
    validateWorkerCode "const a = `x$\x7by\x7dz`" = ⟨false, some msgDangerous⟩
    ∧ runDeployWorker envOkW propsW okWorkerResp ⟨"w", "const a = `x$\x7by\x7dz`", none⟩ =
      (.validationError msgDangerous, []) :=
  template_literal_code_rejected _ envOkW propsW okWorkerResp "w" none (by decide)

end RemoteMCP
